import Mathlib

set_option maxRecDepth 16000
set_option linter.unreachableTactic false
set_option linter.unusedTactic false

/-!
Shallow embedding of the binary decoding core of the physics-eater tool
(src/util.rs, src/wad.rs, src/namedb.rs, src/physics.rs, src/physics/m1.rs,
src/physics/m2.rs).

Modelling conventions:
* a byte source is a `List Nat` (each element one byte);
* sequential fallible reads (Rust `impl Read` cursors) are state-passing
  functions `List Nat → Option (α × List Nat)` (the monad `M` below);
* seekable sources (Rust `impl Read + Seek`) are modelled by keeping the whole
  byte list and an explicit position, with `readBytesAt`/`read32At`;
* machine integers are `Nat` (big-endian composition) with explicit signed
  reinterpretation helpers `toI16`/`toI32`;
* the `f32` fixed-point values produced by `read_fx_16_16`, `read_fx_6_10`,
  `read_angle` are modelled by the raw signed integer they are computed from
  (the source divides by 65536 or 1024, or multiplies by 360/512, into `f32`;
  no claim under study depends on that final scaling, and for the 16-bit
  readers the scaling is an injective exact map, so nothing is conflated);
* loops whose termination depends on seek targets taken from the input
  (`Chunk::read_m2_chunks` and, for uniformity, `Chunk::read_m1_chunks`) take
  an explicit fuel argument; fuel exhaustion is the distinguished error value
  `Err.outOfFuel`, so an `Except.ok`/other-`Except.error` result always
  corresponds to an actual terminating run of the Rust loop.
-/

/-- Big-endian value of a byte list, as in `u16::from_be_bytes`/`u32::from_be_bytes`. -/
def beNat (l : List Nat) : Nat := l.foldl (fun a b => a * 256 + b) 0

/-- Reinterpret a 16-bit unsigned value as signed (`as i16` in util.rs). -/
def toI16 (v : Nat) : Int := if v < 0x8000 then (v : Int) else (v : Int) - 0x10000

/-- Reinterpret a 32-bit unsigned value as signed (`as i32` in util.rs). -/
def toI32 (v : Nat) : Int := if v < 0x80000000 then (v : Int) else (v : Int) - 0x100000000

/-- The sequential byte-cursor monad: Rust functions `fn(impl Read) -> Result<T>`
become `M T`; `none` is a read failure (an `Err`/`?` propagation in Rust). -/
def M (α : Type) : Type := List Nat → Option (α × List Nat)

def mPure {α : Type} (a : α) : M α := fun s => some (a, s)

def mBind {α β : Type} (p : M α) (f : α → M β) : M β := fun s =>
  match p s with
  | none => none
  | some (a, s1) => f a s1

def mMap {α β : Type} (p : M α) (g : α → β) : M β := mBind p (fun a => mPure (g a))

/-- util.rs `read16`: two big-endian bytes; fails when fewer than 2 bytes remain. -/
def read16 : M Nat := fun s =>
  match s with
  | a :: b :: rest => some (a * 256 + b, rest)
  | _ => none

/-- util.rs `read32`: four big-endian bytes; fails when fewer than 4 bytes remain. -/
def read32 : M Nat := fun s =>
  match s with
  | a :: b :: c :: d :: rest => some (((a * 256 + b) * 256 + c) * 256 + d, rest)
  | _ => none

/-- `read_exact` into a buffer of length `n`. -/
def readBytes (n : Nat) : M (List Nat) := fun s =>
  if n ≤ s.length then some (s.take n, s.drop n) else none

/-- util.rs `read_fx_16_16` (signed 16.16 fixed point; the `f32` result is
this signed word divided by 65536, kept unscaled here). -/
def read_fx_16_16 : M Int := mMap read32 toI32

/-- util.rs `read_fx_6_10` (world distance/speed/accel; the `f32` result is
this signed word divided by 1024, kept unscaled here). -/
def read_fx_6_10 : M Int := mMap read16 toI16

/-- util.rs `read_angle` (the `f32` result is this signed word times 360/512,
kept unscaled here). -/
def read_angle : M Int := mMap read16 toI16

/-- util.rs `read_optional_16`: bit 0x8000 set means absent. -/
def read_optional_16 : M (Option Nat) :=
  mMap read16 (fun v => if v &&& 0x8000 ≠ 0 then none else some v)

/-- util.rs `read_optional_32`: tests bit 0x8000 (bit 15, not bit 31). -/
def read_optional_32 : M (Option Nat) :=
  mMap read32 (fun v => if v &&& 0x8000 ≠ 0 then none else some v)

/-- util.rs `read_optional_fx_6_10` (the present `f32` value is this signed
word divided by 1024, kept unscaled here). -/
def read_optional_fx_6_10 : M (Option Int) :=
  mMap read_optional_16 (fun o => o.map toI16)

/-- util.rs `read_generic_bitfield32`: ascending list of set bit indices. -/
def read_generic_bitfield32 : M (List Nat) :=
  mMap read32 (fun v => (List.range 32).filter (fun i => v &&& (1 <<< i) ≠ 0))

/-! ### Framework: consumption and result predicates for `M` computations -/

/-- `Consumes p n`: on any state with at least `n` bytes, `p` succeeds and
consumes exactly `n` bytes. -/
def Consumes {α : Type} (p : M α) (n : Nat) : Prop :=
  ∀ s : List Nat, n ≤ s.length → ∃ a, p s = some (a, s.drop n)

theorem consumes_of_eq {α : Type} {p : M α} (n k : Nat)
    (h : Consumes p n) (e : n = k) : Consumes p k := e ▸ h

theorem consumes_pure {α : Type} (a : α) : Consumes (mPure a) 0 :=
  fun _ _ => ⟨a, rfl⟩

theorem consumes_bind {α β : Type} {p : M α} {f : α → M β} {n m : Nat}
    (hp : Consumes p n) (hf : ∀ a, Consumes (f a) m) :
    Consumes (mBind p f) (n + m) := by
  intro s hs
  obtain ⟨a, ha⟩ := hp s (le_trans (Nat.le_add_right n m) hs)
  obtain ⟨b, hb⟩ := hf a (s.drop n) (by rw [List.length_drop]; omega)
  refine ⟨b, ?_⟩
  simp only [mBind, ha, hb, List.drop_drop]

theorem consumes_mMap {α β : Type} {p : M α} {n : Nat} (g : α → β)
    (hp : Consumes p n) : Consumes (mMap p g) n := by
  have h := consumes_bind hp (fun a => consumes_pure (g a))
  simpa using h

theorem consumes_read16 : Consumes read16 2 := by
  intro s hs
  match s with
  | [] => simp at hs
  | [a] => simp at hs
  | a :: b :: rest => exact ⟨a * 256 + b, rfl⟩

theorem consumes_read32 : Consumes read32 4 := by
  intro s hs
  match s with
  | [] => simp at hs
  | [a] => simp at hs
  | [a, b] => simp at hs
  | [a, b, c] => simp at hs
  | a :: b :: c :: d :: rest => exact ⟨((a * 256 + b) * 256 + c) * 256 + d, rfl⟩

theorem consumes_readBytes (n : Nat) : Consumes (readBytes n) n := by
  intro s hs
  exact ⟨s.take n, by simp [readBytes, hs]⟩

theorem consumes_fx1616 : Consumes read_fx_16_16 4 := consumes_mMap _ consumes_read32

theorem consumes_fx610 : Consumes read_fx_6_10 2 := consumes_mMap _ consumes_read16

theorem consumes_angle : Consumes read_angle 2 := consumes_mMap _ consumes_read16

theorem consumes_opt16 : Consumes read_optional_16 2 := consumes_mMap _ consumes_read16

theorem consumes_opt32 : Consumes read_optional_32 4 := consumes_mMap _ consumes_read32

theorem consumes_optfx610 : Consumes read_optional_fx_6_10 2 := consumes_mMap _ consumes_opt16

theorem consumes_bitfield32 : Consumes read_generic_bitfield32 4 := consumes_mMap _ consumes_read32

/-- `Produces p P`: every value a computation can return satisfies `P`. -/
def Produces {α : Type} (p : M α) (P : α → Prop) : Prop :=
  ∀ s a s1, p s = some (a, s1) → P a

theorem produces_pure {α : Type} {P : α → Prop} {a : α} (h : P a) :
    Produces (mPure a) P := by
  intro s b s1 hb
  simp only [mPure, Option.some.injEq, Prod.mk.injEq] at hb
  exact hb.1 ▸ h

theorem produces_bind {α β : Type} {p : M α} {f : α → M β} {P : β → Prop}
    (h : ∀ a, Produces (f a) P) : Produces (mBind p f) P := by
  intro s b s1 hb
  simp only [mBind] at hb
  match hp : p s with
  | none => rw [hp] at hb; exact absurd hb (by simp)
  | some (a, s2) => rw [hp] at hb; exact h a s2 b s1 hb

/-! ### Name resolution (src/namedb.rs) -/

/-- A JSON value as far as the decoders produce one for a name: either a
resolved label or the numeric index re-emitted (serde_json::Value). -/
inductive JValue : Type
  | str (s : String)
  | num (n : Nat)
  deriving DecidableEq, Inhabited

/-- namedb.rs `NameDb`: an index-keyed list of optional names. -/
structure NameDb : Type where
  names : List (Option String)
  deriving DecidableEq, Inhabited

/-- namedb.rs `NameDb::identify`: the stored name when one exists, otherwise
the numeric index unchanged.  (The source also asserts that a stored name is
nonempty; that assertion cannot fire for databases the program constructs and
is not modelled.) -/
def NameDb.identify (db : NameDb) (index : Nat) : JValue :=
  match (db.names.get? index).bind id with
  | some s => .str s
  | none => .num index

/-- namedb.rs `NameDbs`. -/
structure NameDbs : Type where
  monster_class_names : NameDb
  monster_names : NameDb
  projectile_names : NameDb
  weapon_names : NameDb
  item_names : NameDb
  effect_names : NameDb
  damage_type_names : NameDb
  collection_names : NameDb
  sound_names : NameDb
  weapon_class_names : NameDb
  deriving DecidableEq

/-- namedb.rs `impl Default for NameDbs`: every database empty except the
built-in weapon-class fallback table. -/
def NameDbs.default : NameDbs where
  monster_class_names := ⟨[]⟩
  monster_names := ⟨[]⟩
  projectile_names := ⟨[]⟩
  weapon_names := ⟨[]⟩
  item_names := ⟨[]⟩
  effect_names := ⟨[]⟩
  damage_type_names := ⟨[]⟩
  collection_names := ⟨[]⟩
  sound_names := ⟨[]⟩
  weapon_class_names := ⟨[some "melee", some "normal", some "dual function",
    some "dual wield", some "multipurpose"]⟩

instance : Inhabited NameDbs := ⟨NameDbs.default⟩

/-! ### Errors

One inductive covers every failure the modelled code can surface
(anyhow::Error values in the source, distinguished by their message shape). -/

inductive Err : Type
  /-- an underlying read failed (`?` on a read, with its context string) -/
  | ioError (ctx : String)
  /-- wad.rs `read_m2_chunks`: nonzero unknown-purpose ("offset") field; carries
  the chunk index within the subfile, the 4-byte tag, and the offset value the
  message prints (the seek target of this iteration, 0 when none). -/
  | nonzeroUnknown (index : Nat) (kind : List Nat) (offset : Nat)
  /-- wad.rs `read_wad`: "this is a Marathon 1 physics file, not a WAD!" -/
  | m1NotWad
  /-- fuel exhaustion of the model; corresponds to a diverging Rust loop -/
  | outOfFuel
  /-- wad.rs `Chunk::find`: "Unable to find chunk of type ..." -/
  | chunkNotFound (kind : List Nat)
  /-- physics/m?.rs `read_definitions`: "non-integer number of ... definitions" -/
  | sizeMismatch (msg : String)
  deriving DecidableEq, Inhabited

/-! ### Chunks and the two container dialects (src/wad.rs) -/

/-- wad.rs `Chunk`: a 4-byte tag plus an owned payload. -/
structure Chunk : Type where
  kind : List Nat
  data : List Nat
  deriving DecidableEq, Inhabited

/-- Read `n` bytes of a seekable source at absolute position `pos`
(`read_exact` after a seek; fails when fewer than `n` bytes remain). -/
def readBytesAt (input : List Nat) (pos n : Nat) : Option (List Nat) :=
  if pos + n ≤ input.length then some ((input.drop pos).take n) else none

/-- `read32` at an absolute position of a seekable source. -/
def read32At (input : List Nat) (pos : Nat) : Option Nat :=
  (readBytesAt input pos 4).map beNat

/-- wad.rs `Chunk::read_m2_chunks`, loop body.  State: remaining fuel, the
sequential read position `pos`, the previously read chunk's "next offset"
field `nextOff` (0 before the first chunk), and the chunks read so far.
Each iteration first seeks to `nextOff` when it is nonzero — the next-offset
field drives navigation — and otherwise continues at the sequential position. -/
def readM2Loop (input : List Nat) : Nat → Nat → Nat → List Chunk → Except Err (List Chunk)
  | 0, _, _, _ => .error .outOfFuel
  | fuel + 1, pos, nextOff, acc =>
    let p := if nextOff ≠ 0 then nextOff else pos
    match readBytesAt input p 4 with
    | none => .ok acc
    | some kind =>
      match read32At input (p + 4), read32At input (p + 8), read32At input (p + 12) with
      | some nextOff2, some length, some unknown =>
        if unknown ≠ 0 then .error (.nonzeroUnknown acc.length kind nextOff)
        else
          match readBytesAt input (p + 16) length with
          | none => .error (.ioError "unable to read a chunk of the WAD")
          | some data => readM2Loop input fuel (p + 16 + length) nextOff2 (acc ++ [⟨kind, data⟩])
      | _, _, _ => .error (.ioError "unable to read a chunk of the WAD")

/-- wad.rs `Chunk::read_m2_chunks` on a whole subfile.  Fuel `length + 1`
suffices for every terminating run of the Rust loop (a terminating run never
visits the same header position twice and every header position is within the
input), so `ok`/`error` results other than `outOfFuel` are exact. -/
def read_m2_chunks (input : List Nat) : Except Err (List Chunk) :=
  readM2Loop input (input.length + 1) 0 0 []

/-- Purely sequential reference reader for the embedded chunk stream, following
the spec's description of the archive dialect: identical header parsing and
error behaviour, but each subsequent chunk header is read at the byte position
immediately following the previous chunk's payload; the next-offset field is
recorded with each chunk and never used for navigation. -/
def readM2SeqLoop (input : List Nat) : Nat → Nat → List (Chunk × Nat) → Except Err (List (Chunk × Nat))
  | 0, _, _ => .error .outOfFuel
  | fuel + 1, pos, acc =>
    match readBytesAt input pos 4 with
    | none => .ok acc
    | some kind =>
      match read32At input (pos + 4), read32At input (pos + 8), read32At input (pos + 12) with
      | some nextOff2, some length, some unknown =>
        if unknown ≠ 0 then .error (.nonzeroUnknown acc.length kind 0)
        else
          match readBytesAt input (pos + 16) length with
          | none => .error (.ioError "unable to read a chunk of the WAD")
          | some data => readM2SeqLoop input fuel (pos + 16 + length) (acc ++ [(⟨kind, data⟩, nextOff2)])
      | _, _, _ => .error (.ioError "unable to read a chunk of the WAD")

/-- The sequential reference reader on a whole subfile (chunk list only). -/
def read_m2_chunks_seq (input : List Nat) : Except Err (List Chunk) :=
  (readM2SeqLoop input (input.length + 1) 0 []).map (List.map Prod.fst)

/-- wad.rs `Chunk::read_m1_chunks`, loop body (flat dialect, purely sequential,
consuming its input).  Header: 4-byte tag, 4 ignored bytes, 16-bit count,
16-bit size; payload length is `count * size`.  A failed tag read ends the
stream cleanly. -/
def readM1Loop : Nat → List Nat → List Chunk → Except Err (List Chunk)
  | 0, _, _ => .error .outOfFuel
  | fuel + 1, s, acc =>
    match readBytes 4 s with
    | none => .ok acc
    | some (kind, s1) =>
      match read32 s1 with
      | none => .error (.ioError "unable to read a chunk")
      | some (_, s2) =>
        match read16 s2 with
        | none => .error (.ioError "unable to read a chunk")
        | some (count, s3) =>
          match read16 s3 with
          | none => .error (.ioError "unable to read a chunk")
          | some (size, s4) =>
            match readBytes (count * size) s4 with
            | none => .error (.ioError "unable to read a chunk of a subfile of the WAD")
            | some (data, s5) => readM1Loop fuel s5 (acc ++ [⟨kind, data⟩])

/-- wad.rs `Chunk::read_m1_chunks`.  Each iteration consumes at least 12 bytes,
so fuel `length + 1` always suffices and `outOfFuel` is unreachable. -/
def read_m1_chunks (input : List Nat) : Except Err (List Chunk) :=
  readM1Loop (input.length + 1) input []

/-- wad.rs `Chunk::find`: payload of the first chunk with the requested tag. -/
def Chunk.find : List Chunk → List Nat → Except Err (List Nat)
  | [], kind => .error (.chunkNotFound kind)
  | c :: rest, kind => if c.kind = kind then .ok c.data else Chunk.find rest kind

/-! ### Generic fixed-size record decoding (`read_definitions` pattern)

Every `read_definitions` in physics/m1.rs and physics/m2.rs has the shape:
check `input.len() % SIZE == 0`, else fail with the size-mismatch message;
then decode each of the `len / SIZE` consecutive slices with the record
reader, passing the slice index, and collect the results. -/

/-- The `i`-th consecutive `size`-byte slice of a payload (`chunks_exact`). -/
def sliceAt (input : List Nat) (size i : Nat) : List Nat :=
  (input.drop (i * size)).take size

/-- Decode slices `j, j+1, ..., j+k-1`, failing if any record read fails. -/
def readSlices {α : Type} (readOne : Nat → M α) (size : Nat) (input : List Nat) :
    Nat → Nat → Except Err (List α)
  | _, 0 => .ok []
  | j, k + 1 =>
    match readOne j (sliceAt input size j) with
    | none => .error (.ioError "unable to read a definition")
    | some (a, _) => (readSlices readOne size input (j + 1) k).map (a :: ·)

/-- The shared `read_definitions` shape. -/
def readDefinitionsWith {α : Type} (size : Nat) (msg : String) (readOne : Nat → M α)
    (input : List Nat) : Except Err (List α) :=
  if input.length % size ≠ 0 then .error (.sizeMismatch msg)
  else readSlices readOne size input 0 (input.length / size)

/-! ### Older-generation records (src/physics/m1.rs) -/

namespace m1

def MONSTER_PHYSICS_TAG : List Nat := [109, 111, 110, 115]

def EFFECT_PHYSICS_TAG : List Nat := [101, 102, 102, 101]

def PROJECTILE_PHYSICS_TAG : List Nat := [112, 114, 111, 106]

def PHYSICS_PHYSICS_TAG : List Nat := [112, 104, 121, 115]

def WEAPON_PHYSICS_TAG : List Nat := [119, 101, 97, 112]

structure MonsterFlags : Type where
  omniscient : Bool
  flies : Bool
  is_alien : Bool
  major : Bool
  minor : Bool
  cannot_skip : Bool
  floats : Bool
  cannot_attack : Bool
  uses_sniper_ledges : Bool
  is_invisible : Bool
  is_subtly_invisible : Bool
  kamikaze : Bool
  berserker : Bool
  enlarged : Bool
  delayed_hard_death : Bool
  fires_symmetrically : Bool
  nuclear_hard_death : Bool
  cannot_fire_backwards : Bool
  can_die_in_flames : Bool
  waits_with_clear_shot : Bool
  tiny : Bool
  attacks_immediately : Bool
  not_afraid_of_water : Bool
  not_afraid_of_sewage : Bool
  not_afraid_of_lava : Bool
  not_afraid_of_goo : Bool
  can_teleport_under_media : Bool
  chooses_weapons_randomly : Bool
  deriving DecidableEq, Inhabited

/-- `decode_flags!` on a 32-bit word: the k-th declared flag is bit k. -/
def MonsterFlags.decode (v : Nat) : MonsterFlags :=
  ⟨v.testBit 0, v.testBit 1, v.testBit 2, v.testBit 3, v.testBit 4, v.testBit 5,
   v.testBit 6, v.testBit 7, v.testBit 8, v.testBit 9, v.testBit 10, v.testBit 11,
   v.testBit 12, v.testBit 13, v.testBit 14, v.testBit 15, v.testBit 16, v.testBit 17,
   v.testBit 18, v.testBit 19, v.testBit 20, v.testBit 21, v.testBit 22, v.testBit 23,
   v.testBit 24, v.testBit 25, v.testBit 26, v.testBit 27⟩

def MonsterFlags.read : M MonsterFlags := mMap read32 MonsterFlags.decode

structure DamageDefinitionFlags : Type where
  alien_damage : Bool
  deriving DecidableEq, Inhabited

def DamageDefinitionFlags.read : M DamageDefinitionFlags :=
  mMap read16 (fun v => ⟨v.testBit 0⟩)

structure DamageDefinition : Type where
  damage_type : Option JValue
  flags : DamageDefinitionFlags
  base : Int
  random : Int
  scale : Int
  deriving DecidableEq, Inhabited

def DamageDefinition.read (dbs : NameDbs) : M DamageDefinition :=
  mBind read_optional_16 fun damage_type =>
  mBind DamageDefinitionFlags.read fun flags =>
  mBind read16 fun base =>
  mBind read16 fun random =>
  mBind read_fx_16_16 fun scale =>
  mPure { damage_type := damage_type.map dbs.damage_type_names.identify,
          flags, base := toI16 base, random := toI16 random, scale }

structure AttackDefinition : Type where
  projectile_type : JValue
  repetitions : Option Nat
  error : Int
  range : Int
  attack_sequence : Option Nat
  dx : Int
  dy : Int
  dz : Int
  deriving DecidableEq, Inhabited

/-- physics/m1.rs `AttackDefinition::read`: all eight fields are always read;
the attack is absent exactly when its own projectile-type field is absent. -/
def AttackDefinition.read (dbs : NameDbs) : M (Option AttackDefinition) :=
  mBind read_optional_16 fun projectile_type =>
  mBind read_optional_16 fun repetitions =>
  mBind read_angle fun error =>
  mBind read_fx_6_10 fun range =>
  mBind read_optional_16 fun attack_sequence =>
  mBind read_fx_6_10 fun dx =>
  mBind read_fx_6_10 fun dy =>
  mBind read_fx_6_10 fun dz =>
  mPure ((projectile_type.map dbs.projectile_names.identify).map fun pt =>
    { projectile_type := pt, repetitions, error, range, attack_sequence, dx, dy, dz })

structure MonsterDefinition : Type where
  name : JValue
  collection : Option JValue
  clut : Option Nat
  vitality : Option Nat
  immunities : List JValue
  weaknesses : List JValue
  flags : MonsterFlags
  class_ : Option JValue
  friends : List JValue
  enemies : List JValue
  activation_sound : Option JValue
  conversation_sound : Option JValue
  flaming_sound : Option JValue
  random_sound : Option JValue
  random_sound_mask : Option Nat
  carrying_item_type : Option JValue
  radius : Int
  height : Int
  preferred_hover_height : Int
  minimum_ledge_delta : Int
  maximum_ledge_delta : Int
  external_velocity_scale : Int
  impact_effect : Option JValue
  melee_impact_effect : Option JValue
  half_visual_arc : Int
  half_vertical_visual_arc : Int
  visual_range : Int
  dark_visual_range : Int
  intelligence : Option Nat
  speed : Int
  gravity : Int
  terminal_velocity : Int
  door_retry_mask : Option Nat
  shrapnel_radius : Option Int
  shrapnel_damage : DamageDefinition
  hit_sequence : Option Nat
  hard_dying_sequence : Option Nat
  soft_dying_sequence : Option Nat
  hard_dead_sequence : Option Nat
  soft_dead_sequence : Option Nat
  stationary_sequence : Option Nat
  moving_sequence : Option Nat
  attack_frequency : Option Nat
  melee_attack : Option AttackDefinition
  ranged_attack : Option AttackDefinition
  deriving DecidableEq, Inhabited

/-- physics/m1.rs `MonsterDefinition::read` (138-byte record; in the source the
field named `class` here is `class_`). -/
def MonsterDefinition.read (dbs : NameDbs) (index : Nat) : M MonsterDefinition :=
  mBind read_optional_16 fun collection_and_clut =>
  mBind read_optional_16 fun vitality =>
  mBind read_generic_bitfield32 fun immunities =>
  mBind read_generic_bitfield32 fun weaknesses =>
  mBind MonsterFlags.read fun flags =>
  mBind read_optional_32 fun class_ =>
  mBind read_generic_bitfield32 fun friends =>
  mBind read_generic_bitfield32 fun enemies =>
  mBind read_optional_16 fun activation_sound =>
  mBind read_optional_16 fun conversation_sound =>
  mBind read_optional_16 fun flaming_sound =>
  mBind read_optional_16 fun random_sound =>
  mBind read_optional_16 fun random_sound_mask =>
  mBind read_optional_16 fun carrying_item_type =>
  mBind read_fx_6_10 fun radius =>
  mBind read_fx_6_10 fun height =>
  mBind read_fx_6_10 fun preferred_hover_height =>
  mBind read_fx_6_10 fun minimum_ledge_delta =>
  mBind read_fx_6_10 fun maximum_ledge_delta =>
  mBind read_fx_16_16 fun external_velocity_scale =>
  mBind read_optional_16 fun impact_effect =>
  mBind read_optional_16 fun melee_impact_effect =>
  mBind read_angle fun half_visual_arc =>
  mBind read_angle fun half_vertical_visual_arc =>
  mBind read_fx_6_10 fun visual_range =>
  mBind read_fx_6_10 fun dark_visual_range =>
  mBind read_optional_16 fun intelligence =>
  mBind read_fx_6_10 fun speed =>
  mBind read_fx_6_10 fun gravity =>
  mBind read_fx_6_10 fun terminal_velocity =>
  mBind read_optional_16 fun door_retry_mask =>
  mBind read_optional_fx_6_10 fun shrapnel_radius =>
  mBind (DamageDefinition.read dbs) fun shrapnel_damage =>
  mBind read_optional_16 fun hit_sequence =>
  mBind read_optional_16 fun hard_dying_sequence =>
  mBind read_optional_16 fun soft_dying_sequence =>
  mBind read_optional_16 fun hard_dead_sequence =>
  mBind read_optional_16 fun soft_dead_sequence =>
  mBind read_optional_16 fun stationary_sequence =>
  mBind read_optional_16 fun moving_sequence =>
  mBind read_optional_16 fun attack_frequency =>
  mBind (AttackDefinition.read dbs) fun melee_attack =>
  mBind (AttackDefinition.read dbs) fun ranged_attack =>
  mPure { name := dbs.monster_names.identify index,
          collection := collection_and_clut.map (fun x => dbs.collection_names.identify (x % 32)),
          clut := collection_and_clut.map (fun x => x / 32),
          vitality,
          immunities := immunities.map dbs.damage_type_names.identify,
          weaknesses := weaknesses.map dbs.damage_type_names.identify,
          flags,
          class_ := class_.map dbs.monster_class_names.identify,
          friends := friends.map dbs.monster_class_names.identify,
          enemies := enemies.map dbs.monster_class_names.identify,
          activation_sound := activation_sound.map dbs.sound_names.identify,
          conversation_sound := conversation_sound.map dbs.sound_names.identify,
          flaming_sound := flaming_sound.map dbs.sound_names.identify,
          random_sound := random_sound.map dbs.sound_names.identify,
          random_sound_mask,
          carrying_item_type := carrying_item_type.map dbs.item_names.identify,
          radius, height, preferred_hover_height, minimum_ledge_delta,
          maximum_ledge_delta, external_velocity_scale,
          impact_effect := impact_effect.map dbs.effect_names.identify,
          melee_impact_effect := melee_impact_effect.map dbs.effect_names.identify,
          half_visual_arc, half_vertical_visual_arc, visual_range,
          dark_visual_range, intelligence, speed, gravity, terminal_velocity,
          door_retry_mask, shrapnel_radius, shrapnel_damage,
          hit_sequence, hard_dying_sequence, soft_dying_sequence,
          hard_dead_sequence, soft_dead_sequence, stationary_sequence,
          moving_sequence, attack_frequency, melee_attack, ranged_attack }

def SIZE_OF_MONSTER_DEFINITION : Nat := 138

def MonsterDefinition.read_definitions (input : List Nat) (dbs : NameDbs) :
    Except Err (List MonsterDefinition) :=
  readDefinitionsWith SIZE_OF_MONSTER_DEFINITION
    "non-integer number of monster definitions, or corrupted/misdetected physics file"
    (fun i => MonsterDefinition.read dbs i) input

end m1

namespace m1

structure EffectFlags : Type where
  end_when_animation_loops : Bool
  end_when_transfer_animation_loops : Bool
  sound_only : Bool
  make_twin_visible : Bool
  deriving DecidableEq, Inhabited

structure EffectDefinition : Type where
  name : JValue
  collection : Option JValue
  clut : Option Nat
  sequence : Option Nat
  flags : EffectFlags
  deriving DecidableEq, Inhabited

/-- physics/m1.rs `EffectDefinition::read` (6-byte record). -/
def EffectDefinition.read (dbs : NameDbs) (index : Nat) : M EffectDefinition :=
  mBind read_optional_16 fun collection_and_clut =>
  mBind read_optional_16 fun sequence =>
  mBind (mMap read16 (fun v => EffectFlags.mk (v.testBit 0) (v.testBit 1) (v.testBit 2) (v.testBit 3))) fun flags =>
  mPure { name := dbs.effect_names.identify index,
          collection := collection_and_clut.map (fun x => dbs.collection_names.identify (x % 32)),
          clut := collection_and_clut.map (fun x => x / 32),
          sequence, flags }

def SIZE_OF_EFFECT_DEFINITION : Nat := 6

def EffectDefinition.read_definitions (input : List Nat) (dbs : NameDbs) :
    Except Err (List EffectDefinition) :=
  readDefinitionsWith SIZE_OF_EFFECT_DEFINITION
    "non-integer number of effect definitions, or corrupted/misdetected physics file"
    (fun i => EffectDefinition.read dbs i) input

structure ProjectileFlags : Type where
  guided : Bool
  stop_when_animation_loops : Bool
  persistent : Bool
  alien : Bool
  affected_by_gravity : Bool
  no_horizontal_error : Bool
  no_vertical_error : Bool
  can_toggle_control_panels : Bool
  positive_vertical_error : Bool
  melee : Bool
  persistent_and_virulent : Bool
  usually_pass_transparent_side : Bool
  sometimes_pass_transparent_side : Bool
  doubly_affected_by_gravity : Bool
  deriving DecidableEq, Inhabited

def ProjectileFlags.decode (v : Nat) : ProjectileFlags :=
  ⟨v.testBit 0, v.testBit 1, v.testBit 2, v.testBit 3, v.testBit 4, v.testBit 5,
   v.testBit 6, v.testBit 7, v.testBit 8, v.testBit 9, v.testBit 10, v.testBit 11,
   v.testBit 12, v.testBit 13⟩

structure ProjectileDefinition : Type where
  name : JValue
  collection : Option JValue
  clut : Option Nat
  sequence : Option Nat
  detonation_effect : Option JValue
  contrail_effect : Option JValue
  ticks_between_contrails : Option JValue
  maximum_contrails : Option JValue
  radius : Int
  area_of_effect : Int
  damage : DamageDefinition
  flags : ProjectileFlags
  speed : Int
  maximum_range : Int
  flyby_sound : Option JValue
  deriving DecidableEq, Inhabited

/-- physics/m1.rs `ProjectileDefinition::read` (36-byte record).  Note that the
source resolves `ticks_between_contrails` and `maximum_contrails` through the
effect-name database, exactly as written there. -/
def ProjectileDefinition.read (dbs : NameDbs) (index : Nat) : M ProjectileDefinition :=
  mBind read_optional_16 fun collection_and_clut =>
  mBind read_optional_16 fun sequence =>
  mBind read_optional_16 fun detonation_effect =>
  mBind read_optional_16 fun contrail_effect =>
  mBind read_optional_16 fun ticks_between_contrails =>
  mBind read_optional_16 fun maximum_contrails =>
  mBind read_fx_6_10 fun radius =>
  mBind read_fx_6_10 fun area_of_effect =>
  mBind (DamageDefinition.read dbs) fun damage =>
  mBind (mMap read16 ProjectileFlags.decode) fun flags =>
  mBind read_fx_6_10 fun speed =>
  mBind read_fx_6_10 fun maximum_range =>
  mBind read_optional_16 fun flyby_sound =>
  mPure { name := dbs.projectile_names.identify index,
          collection := collection_and_clut.map (fun x => dbs.collection_names.identify (x % 32)),
          clut := collection_and_clut.map (fun x => x / 32),
          sequence,
          detonation_effect := detonation_effect.map dbs.effect_names.identify,
          contrail_effect := contrail_effect.map dbs.effect_names.identify,
          ticks_between_contrails := ticks_between_contrails.map dbs.effect_names.identify,
          maximum_contrails := maximum_contrails.map dbs.effect_names.identify,
          radius, area_of_effect, damage, flags, speed, maximum_range,
          flyby_sound := flyby_sound.map dbs.sound_names.identify }

def SIZE_OF_PROJECTILE_DEFINITION : Nat := 36

def ProjectileDefinition.read_definitions (input : List Nat) (dbs : NameDbs) :
    Except Err (List ProjectileDefinition) :=
  readDefinitionsWith SIZE_OF_PROJECTILE_DEFINITION
    "non-integer number of projectile definitions, or corrupted/misdetected physics file"
    (fun i => ProjectileDefinition.read dbs i) input

structure WeaponFlags : Type where
  is_automatic : Bool
  unknown : Bool
  disappears_after_use : Bool
  deriving DecidableEq, Inhabited

structure TriggerDefinition : Type where
  rounds_per_magazine : Option Nat
  ammunition_type : Option JValue
  ticks_per_round : Option Nat
  recovery_ticks : Option Nat
  charging_ticks : Option Nat
  recoil_magnitude : Int
  firing_sound : Option JValue
  click_sound : Option JValue
  charging_sound : Option JValue
  shell_casing_sound : Option JValue
  reloading_sound : Option JValue
  sound_activation_range : Int
  projectile_type : Option JValue
  theta_error : Int
  dx : Int
  dz : Int
  burst_count : Option Nat
  deriving DecidableEq, Inhabited

structure WeaponDefinition : Type where
  name : JValue
  item_type : Option JValue
  weapon_class : Option JValue
  flags : WeaponFlags
  firing_light_intensity : Int
  firing_intensity_decay_ticks : Option Nat
  idle_height : Int
  bob_amplitude : Int
  kick_height : Int
  reload_height : Int
  idle_width : Int
  horizontal_amplitude : Int
  collection : Option Nat
  idle_sequence : Option Nat
  firing_sequence : Option Nat
  reloading_sequence : Option Nat
  unused : Nat
  charging_sequence : Option Nat
  charged_sequence : Option Nat
  ready_ticks : Option Nat
  await_reload_ticks : Option Nat
  triggers : TriggerDefinition × TriggerDefinition
  deriving DecidableEq, Inhabited

/-- physics/m1.rs `WeaponDefinition::read` (120-byte record).  The byte stream
interleaves the two triggers' fields; the source fills a two-element trigger
array as it reads, the model binds each value in the same read order and
assembles the two triggers at the end.  The wire format carries only one
reloading-sound and one charging-sound field: the source sets
`triggers[1].reloading_sound = None` and copies `triggers[0].charging_sound`
into `triggers[1].charging_sound`. -/
def WeaponDefinition.read (dbs : NameDbs) (index : Nat) : M WeaponDefinition :=
  mBind read_optional_16 fun item_type =>
  mBind read_optional_16 fun weapon_class =>
  mBind (mMap read16 (fun v => WeaponFlags.mk (v.testBit 0) (v.testBit 1) (v.testBit 2))) fun flags =>
  mBind read_optional_16 fun t0_ammunition_type =>
  mBind read_optional_16 fun t0_rounds_per_magazine =>
  mBind read_optional_16 fun t1_ammunition_type =>
  mBind read_optional_16 fun t1_rounds_per_magazine =>
  mBind read_fx_16_16 fun firing_light_intensity =>
  mBind read_optional_16 fun firing_intensity_decay_ticks =>
  mBind read_fx_16_16 fun idle_height =>
  mBind read_fx_16_16 fun bob_amplitude =>
  mBind read_fx_16_16 fun kick_height =>
  mBind read_fx_16_16 fun reload_height =>
  mBind read_fx_16_16 fun idle_width =>
  mBind read_fx_16_16 fun horizontal_amplitude =>
  mBind read_optional_16 fun collection =>
  mBind read_optional_16 fun idle_sequence =>
  mBind read_optional_16 fun firing_sequence =>
  mBind read_optional_16 fun reloading_sequence =>
  mBind read16 fun unused =>
  mBind read_optional_16 fun charging_sequence =>
  mBind read_optional_16 fun charged_sequence =>
  mBind read_optional_16 fun t0_ticks_per_round =>
  mBind read_optional_16 fun t1_ticks_per_round =>
  mBind read_optional_16 fun await_reload_ticks =>
  mBind read_optional_16 fun ready_ticks =>
  mBind read_optional_16 fun t0_recovery_ticks =>
  mBind read_optional_16 fun t1_recovery_ticks =>
  mBind read_optional_16 fun t0_charging_ticks =>
  mBind read_optional_16 fun t1_charging_ticks =>
  mBind read_fx_6_10 fun t0_recoil_magnitude =>
  mBind read_fx_6_10 fun t1_recoil_magnitude =>
  mBind read_optional_16 fun t0_firing_sound =>
  mBind read_optional_16 fun t1_firing_sound =>
  mBind read_optional_16 fun t0_click_sound =>
  mBind read_optional_16 fun t1_click_sound =>
  mBind read_optional_16 fun t0_reloading_sound =>
  mBind read_optional_16 fun t0_charging_sound =>
  mBind read_optional_16 fun t0_shell_casing_sound =>
  mBind read_optional_16 fun t1_shell_casing_sound =>
  mBind read_fx_6_10 fun t0_sound_activation_range =>
  mBind read_fx_6_10 fun t1_sound_activation_range =>
  mBind read_optional_16 fun t0_projectile_type =>
  mBind read_optional_16 fun t1_projectile_type =>
  mBind read_angle fun t0_theta_error =>
  mBind read_angle fun t1_theta_error =>
  mBind read_fx_6_10 fun t0_dx =>
  mBind read_fx_6_10 fun t0_dz =>
  mBind read_fx_6_10 fun t1_dx =>
  mBind read_fx_6_10 fun t1_dz =>
  mBind read_optional_16 fun t0_burst_count =>
  mBind read_optional_16 fun t1_burst_count =>
  mBind read16 fun _unused2 =>
  mPure { name := dbs.weapon_names.identify index,
          item_type := item_type.map dbs.item_names.identify,
          weapon_class := weapon_class.map dbs.weapon_class_names.identify,
          flags, firing_light_intensity, firing_intensity_decay_ticks,
          idle_height, bob_amplitude, kick_height, reload_height, idle_width,
          horizontal_amplitude, collection, idle_sequence, firing_sequence,
          reloading_sequence, unused, charging_sequence, charged_sequence,
          ready_ticks, await_reload_ticks,
          triggers :=
            ({ rounds_per_magazine := t0_rounds_per_magazine,
               ammunition_type := t0_ammunition_type.map dbs.item_names.identify,
               ticks_per_round := t0_ticks_per_round,
               recovery_ticks := t0_recovery_ticks,
               charging_ticks := t0_charging_ticks,
               recoil_magnitude := t0_recoil_magnitude,
               firing_sound := t0_firing_sound.map dbs.sound_names.identify,
               click_sound := t0_click_sound.map dbs.sound_names.identify,
               charging_sound := t0_charging_sound.map dbs.sound_names.identify,
               shell_casing_sound := t0_shell_casing_sound.map dbs.sound_names.identify,
               reloading_sound := t0_reloading_sound.map dbs.sound_names.identify,
               sound_activation_range := t0_sound_activation_range,
               projectile_type := t0_projectile_type.map dbs.projectile_names.identify,
               theta_error := t0_theta_error,
               dx := t0_dx, dz := t0_dz,
               burst_count := t0_burst_count },
             { rounds_per_magazine := t1_rounds_per_magazine,
               ammunition_type := t1_ammunition_type.map dbs.item_names.identify,
               ticks_per_round := t1_ticks_per_round,
               recovery_ticks := t1_recovery_ticks,
               charging_ticks := t1_charging_ticks,
               recoil_magnitude := t1_recoil_magnitude,
               firing_sound := t1_firing_sound.map dbs.sound_names.identify,
               click_sound := t1_click_sound.map dbs.sound_names.identify,
               charging_sound := t0_charging_sound.map dbs.sound_names.identify,
               shell_casing_sound := t1_shell_casing_sound.map dbs.sound_names.identify,
               reloading_sound := none,
               sound_activation_range := t1_sound_activation_range,
               projectile_type := t1_projectile_type.map dbs.projectile_names.identify,
               theta_error := t1_theta_error,
               dx := t1_dx, dz := t1_dz,
               burst_count := t1_burst_count }) }

def SIZE_OF_WEAPON_DEFINITION : Nat := 120

def WeaponDefinition.read_definitions (input : List Nat) (dbs : NameDbs) :
    Except Err (List WeaponDefinition) :=
  readDefinitionsWith SIZE_OF_WEAPON_DEFINITION
    "non-integer number of weapon definitions, or corrupted/misdetected physics file"
    (fun i => WeaponDefinition.read dbs i) input

end m1

/-! ### Newer-generation records (src/physics/m2.rs)

m2.rs repeats the monster/damage/attack declarations of m1.rs verbatim; the
model mirrors that duplication so each generation stays independently
auditable against its source file. -/

namespace m2

def MONSTER_PHYSICS_TAG : List Nat := [77, 78, 112, 120]

def EFFECT_PHYSICS_TAG : List Nat := [70, 88, 112, 120]

def PROJECTILE_PHYSICS_TAG : List Nat := [80, 82, 112, 120]

def PHYSICS_PHYSICS_TAG : List Nat := [80, 88, 112, 120]

def WEAPON_PHYSICS_TAG : List Nat := [87, 80, 112, 120]

structure MonsterFlags : Type where
  omniscient : Bool
  flies : Bool
  is_alien : Bool
  major : Bool
  minor : Bool
  cannot_skip : Bool
  floats : Bool
  cannot_attack : Bool
  uses_sniper_ledges : Bool
  is_invisible : Bool
  is_subtly_invisible : Bool
  kamikaze : Bool
  berserker : Bool
  enlarged : Bool
  delayed_hard_death : Bool
  fires_symmetrically : Bool
  nuclear_hard_death : Bool
  cannot_fire_backwards : Bool
  can_die_in_flames : Bool
  waits_with_clear_shot : Bool
  tiny : Bool
  attacks_immediately : Bool
  not_afraid_of_water : Bool
  not_afraid_of_sewage : Bool
  not_afraid_of_lava : Bool
  not_afraid_of_goo : Bool
  can_teleport_under_media : Bool
  chooses_weapons_randomly : Bool
  deriving DecidableEq, Inhabited

def MonsterFlags.decode (v : Nat) : MonsterFlags :=
  ⟨v.testBit 0, v.testBit 1, v.testBit 2, v.testBit 3, v.testBit 4, v.testBit 5,
   v.testBit 6, v.testBit 7, v.testBit 8, v.testBit 9, v.testBit 10, v.testBit 11,
   v.testBit 12, v.testBit 13, v.testBit 14, v.testBit 15, v.testBit 16, v.testBit 17,
   v.testBit 18, v.testBit 19, v.testBit 20, v.testBit 21, v.testBit 22, v.testBit 23,
   v.testBit 24, v.testBit 25, v.testBit 26, v.testBit 27⟩

def MonsterFlags.read : M MonsterFlags := mMap read32 MonsterFlags.decode

structure DamageDefinitionFlags : Type where
  alien_damage : Bool
  deriving DecidableEq, Inhabited

def DamageDefinitionFlags.read : M DamageDefinitionFlags :=
  mMap read16 (fun v => ⟨v.testBit 0⟩)

structure DamageDefinition : Type where
  damage_type : Option JValue
  flags : DamageDefinitionFlags
  base : Int
  random : Int
  scale : Int
  deriving DecidableEq, Inhabited

def DamageDefinition.read (dbs : NameDbs) : M DamageDefinition :=
  mBind read_optional_16 fun damage_type =>
  mBind DamageDefinitionFlags.read fun flags =>
  mBind read16 fun base =>
  mBind read16 fun random =>
  mBind read_fx_16_16 fun scale =>
  mPure { damage_type := damage_type.map dbs.damage_type_names.identify,
          flags, base := toI16 base, random := toI16 random, scale }

structure AttackDefinition : Type where
  projectile_type : JValue
  repetitions : Option Nat
  error : Int
  range : Int
  attack_sequence : Option Nat
  dx : Int
  dy : Int
  dz : Int
  deriving DecidableEq, Inhabited

def AttackDefinition.read (dbs : NameDbs) : M (Option AttackDefinition) :=
  mBind read_optional_16 fun projectile_type =>
  mBind read_optional_16 fun repetitions =>
  mBind read_angle fun error =>
  mBind read_fx_6_10 fun range =>
  mBind read_optional_16 fun attack_sequence =>
  mBind read_fx_6_10 fun dx =>
  mBind read_fx_6_10 fun dy =>
  mBind read_fx_6_10 fun dz =>
  mPure ((projectile_type.map dbs.projectile_names.identify).map fun pt =>
    { projectile_type := pt, repetitions, error, range, attack_sequence, dx, dy, dz })

structure MonsterDefinition : Type where
  name : JValue
  collection : Option JValue
  clut : Option Nat
  vitality : Option Nat
  immunities : List JValue
  weaknesses : List JValue
  flags : MonsterFlags
  class_ : Option JValue
  friends : List JValue
  enemies : List JValue
  sound_pitch : Int
  activation_sound : Option JValue
  friendly_activation_sound : Option JValue
  clear_sound : Option JValue
  kill_sound : Option JValue
  apology_sound : Option JValue
  friendly_fire_sound : Option JValue
  flaming_sound : Option JValue
  random_sound : Option JValue
  random_sound_mask : Option Nat
  carrying_item_type : Option JValue
  radius : Int
  height : Int
  preferred_hover_height : Int
  minimum_ledge_delta : Int
  maximum_ledge_delta : Int
  external_velocity_scale : Int
  impact_effect : Option JValue
  melee_impact_effect : Option JValue
  contrail_effect : Option JValue
  half_visual_arc : Int
  half_vertical_visual_arc : Int
  visual_range : Int
  dark_visual_range : Int
  intelligence : Option Nat
  speed : Int
  gravity : Int
  terminal_velocity : Int
  door_retry_mask : Option Nat
  shrapnel_radius : Option Int
  shrapnel_damage : DamageDefinition
  hit_sequence : Option Nat
  hard_dying_sequence : Option Nat
  soft_dying_sequence : Option Nat
  hard_dead_sequence : Option Nat
  soft_dead_sequence : Option Nat
  stationary_sequence : Option Nat
  moving_sequence : Option Nat
  teleport_in_sequence : Option Nat
  teleport_out_sequence : Option Nat
  attack_frequency : Option Nat
  melee_attack : Option AttackDefinition
  ranged_attack : Option AttackDefinition
  deriving DecidableEq, Inhabited

/-- physics/m2.rs `MonsterDefinition::read` (156-byte record). -/
def MonsterDefinition.read (dbs : NameDbs) (index : Nat) : M MonsterDefinition :=
  mBind read_optional_16 fun collection_and_clut =>
  mBind read_optional_16 fun vitality =>
  mBind read_generic_bitfield32 fun immunities =>
  mBind read_generic_bitfield32 fun weaknesses =>
  mBind MonsterFlags.read fun flags =>
  mBind read_optional_32 fun class_ =>
  mBind read_generic_bitfield32 fun friends =>
  mBind read_generic_bitfield32 fun enemies =>
  mBind read_fx_16_16 fun sound_pitch =>
  mBind read_optional_16 fun activation_sound =>
  mBind read_optional_16 fun friendly_activation_sound =>
  mBind read_optional_16 fun clear_sound =>
  mBind read_optional_16 fun kill_sound =>
  mBind read_optional_16 fun apology_sound =>
  mBind read_optional_16 fun friendly_fire_sound =>
  mBind read_optional_16 fun flaming_sound =>
  mBind read_optional_16 fun random_sound =>
  mBind read_optional_16 fun random_sound_mask =>
  mBind read_optional_16 fun carrying_item_type =>
  mBind read_fx_6_10 fun radius =>
  mBind read_fx_6_10 fun height =>
  mBind read_fx_6_10 fun preferred_hover_height =>
  mBind read_fx_6_10 fun minimum_ledge_delta =>
  mBind read_fx_6_10 fun maximum_ledge_delta =>
  mBind read_fx_16_16 fun external_velocity_scale =>
  mBind read_optional_16 fun impact_effect =>
  mBind read_optional_16 fun melee_impact_effect =>
  mBind read_optional_16 fun contrail_effect =>
  mBind read_angle fun half_visual_arc =>
  mBind read_angle fun half_vertical_visual_arc =>
  mBind read_fx_6_10 fun visual_range =>
  mBind read_fx_6_10 fun dark_visual_range =>
  mBind read_optional_16 fun intelligence =>
  mBind read_fx_6_10 fun speed =>
  mBind read_fx_6_10 fun gravity =>
  mBind read_fx_6_10 fun terminal_velocity =>
  mBind read_optional_16 fun door_retry_mask =>
  mBind read_optional_fx_6_10 fun shrapnel_radius =>
  mBind (DamageDefinition.read dbs) fun shrapnel_damage =>
  mBind read_optional_16 fun hit_sequence =>
  mBind read_optional_16 fun hard_dying_sequence =>
  mBind read_optional_16 fun soft_dying_sequence =>
  mBind read_optional_16 fun hard_dead_sequence =>
  mBind read_optional_16 fun soft_dead_sequence =>
  mBind read_optional_16 fun stationary_sequence =>
  mBind read_optional_16 fun moving_sequence =>
  mBind read_optional_16 fun teleport_in_sequence =>
  mBind read_optional_16 fun teleport_out_sequence =>
  mBind read_optional_16 fun attack_frequency =>
  mBind (AttackDefinition.read dbs) fun melee_attack =>
  mBind (AttackDefinition.read dbs) fun ranged_attack =>
  mPure { name := dbs.monster_names.identify index,
          collection := collection_and_clut.map (fun x => dbs.collection_names.identify (x % 32)),
          clut := collection_and_clut.map (fun x => x / 32),
          vitality,
          immunities := immunities.map dbs.damage_type_names.identify,
          weaknesses := weaknesses.map dbs.damage_type_names.identify,
          flags,
          class_ := class_.map dbs.monster_class_names.identify,
          friends := friends.map dbs.monster_class_names.identify,
          enemies := enemies.map dbs.monster_class_names.identify,
          sound_pitch,
          activation_sound := activation_sound.map dbs.sound_names.identify,
          friendly_activation_sound := friendly_activation_sound.map dbs.sound_names.identify,
          clear_sound := clear_sound.map dbs.sound_names.identify,
          kill_sound := kill_sound.map dbs.sound_names.identify,
          apology_sound := apology_sound.map dbs.sound_names.identify,
          friendly_fire_sound := friendly_fire_sound.map dbs.sound_names.identify,
          flaming_sound := flaming_sound.map dbs.sound_names.identify,
          random_sound := random_sound.map dbs.sound_names.identify,
          random_sound_mask,
          carrying_item_type := carrying_item_type.map dbs.item_names.identify,
          radius, height, preferred_hover_height, minimum_ledge_delta,
          maximum_ledge_delta, external_velocity_scale,
          impact_effect := impact_effect.map dbs.effect_names.identify,
          melee_impact_effect := melee_impact_effect.map dbs.effect_names.identify,
          contrail_effect := contrail_effect.map dbs.effect_names.identify,
          half_visual_arc, half_vertical_visual_arc, visual_range,
          dark_visual_range, intelligence, speed, gravity, terminal_velocity,
          door_retry_mask, shrapnel_radius, shrapnel_damage,
          hit_sequence, hard_dying_sequence, soft_dying_sequence,
          hard_dead_sequence, soft_dead_sequence, stationary_sequence,
          moving_sequence, teleport_in_sequence, teleport_out_sequence,
          attack_frequency, melee_attack, ranged_attack }

def SIZE_OF_MONSTER_DEFINITION : Nat := 156

def MonsterDefinition.read_definitions (input : List Nat) (dbs : NameDbs) :
    Except Err (List MonsterDefinition) :=
  readDefinitionsWith SIZE_OF_MONSTER_DEFINITION
    "non-integer number of monster definitions, or corrupted/misdetected physics file"
    (fun i => MonsterDefinition.read dbs i) input

end m2

namespace m2

structure EffectFlags : Type where
  end_when_animation_loops : Bool
  end_when_transfer_animation_loops : Bool
  sound_only : Bool
  make_twin_visible : Bool
  media_effect : Bool
  deriving DecidableEq, Inhabited

structure EffectDefinition : Type where
  name : JValue
  collection : Option JValue
  clut : Option Nat
  sequence : Option Nat
  sound_pitch : Int
  flags : EffectFlags
  delay : Option Nat
  delay_sound : Option JValue
  deriving DecidableEq, Inhabited

/-- physics/m2.rs `EffectDefinition::read` (14-byte record). -/
def EffectDefinition.read (dbs : NameDbs) (index : Nat) : M EffectDefinition :=
  mBind read_optional_16 fun collection_and_clut =>
  mBind read_optional_16 fun sequence =>
  mBind read_fx_16_16 fun sound_pitch =>
  mBind (mMap read16 (fun v => EffectFlags.mk (v.testBit 0) (v.testBit 1) (v.testBit 2) (v.testBit 3) (v.testBit 4))) fun flags =>
  mBind read_optional_16 fun delay =>
  mBind read_optional_16 fun delay_sound =>
  mPure { name := dbs.effect_names.identify index,
          collection := collection_and_clut.map (fun x => dbs.collection_names.identify (x % 32)),
          clut := collection_and_clut.map (fun x => x / 32),
          sequence, sound_pitch, flags, delay,
          delay_sound := delay_sound.map dbs.sound_names.identify }

def SIZE_OF_EFFECT_DEFINITION : Nat := 14

def EffectDefinition.read_definitions (input : List Nat) (dbs : NameDbs) :
    Except Err (List EffectDefinition) :=
  readDefinitionsWith SIZE_OF_EFFECT_DEFINITION
    "non-integer number of effect definitions, or corrupted/misdetected physics file"
    (fun i => EffectDefinition.read dbs i) input

structure ProjectileFlags : Type where
  guided : Bool
  stop_when_animation_loops : Bool
  persistent : Bool
  alien : Bool
  affected_by_gravity : Bool
  no_horizontal_error : Bool
  no_vertical_error : Bool
  can_toggle_control_panels : Bool
  positive_vertical_error : Bool
  melee : Bool
  persistent_and_virulent : Bool
  usually_pass_transparent_side : Bool
  sometimes_pass_transparent_side : Bool
  doubly_affected_by_gravity : Bool
  rebounds_from_floor : Bool
  penetrates_media : Bool
  becomes_item_on_detonation : Bool
  bleeding_projectile : Bool
  horizontal_wander : Bool
  vertical_wander : Bool
  affected_by_half_gravity : Bool
  penetrates_media_boundary : Bool
  passes_through_objects : Bool
  deriving DecidableEq, Inhabited

def ProjectileFlags.decode (v : Nat) : ProjectileFlags :=
  ⟨v.testBit 0, v.testBit 1, v.testBit 2, v.testBit 3, v.testBit 4, v.testBit 5,
   v.testBit 6, v.testBit 7, v.testBit 8, v.testBit 9, v.testBit 10, v.testBit 11,
   v.testBit 12, v.testBit 13, v.testBit 14, v.testBit 15, v.testBit 16, v.testBit 17,
   v.testBit 18, v.testBit 19, v.testBit 20, v.testBit 21, v.testBit 22⟩

structure ProjectileDefinition : Type where
  name : JValue
  collection : Option JValue
  clut : Option Nat
  sequence : Option Nat
  detonation_effect : Option JValue
  media_detonation_effect : Option JValue
  contrail_effect : Option JValue
  ticks_between_contrails : Option JValue
  maximum_contrails : Option JValue
  media_projectile_promotion : Option JValue
  radius : Int
  area_of_effect : Int
  damage : DamageDefinition
  flags : ProjectileFlags
  speed : Int
  maximum_range : Int
  sound_pitch : Int
  flyby_sound : Option JValue
  rebound_sound : Option JValue
  deriving DecidableEq, Inhabited

/-- physics/m2.rs `ProjectileDefinition::read` (48-byte record; 32-bit flag word). -/
def ProjectileDefinition.read (dbs : NameDbs) (index : Nat) : M ProjectileDefinition :=
  mBind read_optional_16 fun collection_and_clut =>
  mBind read_optional_16 fun sequence =>
  mBind read_optional_16 fun detonation_effect =>
  mBind read_optional_16 fun media_detonation_effect =>
  mBind read_optional_16 fun contrail_effect =>
  mBind read_optional_16 fun ticks_between_contrails =>
  mBind read_optional_16 fun maximum_contrails =>
  mBind read_optional_16 fun media_projectile_promotion =>
  mBind read_fx_6_10 fun radius =>
  mBind read_fx_6_10 fun area_of_effect =>
  mBind (DamageDefinition.read dbs) fun damage =>
  mBind (mMap read32 ProjectileFlags.decode) fun flags =>
  mBind read_fx_6_10 fun speed =>
  mBind read_fx_6_10 fun maximum_range =>
  mBind read_fx_16_16 fun sound_pitch =>
  mBind read_optional_16 fun flyby_sound =>
  mBind read_optional_16 fun rebound_sound =>
  mPure { name := dbs.projectile_names.identify index,
          collection := collection_and_clut.map (fun x => dbs.collection_names.identify (x % 32)),
          clut := collection_and_clut.map (fun x => x / 32),
          sequence,
          detonation_effect := detonation_effect.map dbs.effect_names.identify,
          media_detonation_effect := media_detonation_effect.map dbs.effect_names.identify,
          contrail_effect := contrail_effect.map dbs.effect_names.identify,
          ticks_between_contrails := ticks_between_contrails.map dbs.effect_names.identify,
          maximum_contrails := maximum_contrails.map dbs.effect_names.identify,
          media_projectile_promotion := media_projectile_promotion.map dbs.projectile_names.identify,
          radius, area_of_effect, damage, flags, speed, maximum_range,
          sound_pitch,
          flyby_sound := flyby_sound.map dbs.sound_names.identify,
          rebound_sound := rebound_sound.map dbs.sound_names.identify }

def SIZE_OF_PROJECTILE_DEFINITION : Nat := 48

def ProjectileDefinition.read_definitions (input : List Nat) (dbs : NameDbs) :
    Except Err (List ProjectileDefinition) :=
  readDefinitionsWith SIZE_OF_PROJECTILE_DEFINITION
    "non-integer number of projectile definitions, or corrupted/misdetected physics file"
    (fun i => ProjectileDefinition.read dbs i) input

structure WeaponFlags : Type where
  is_automatic : Bool
  disappears_after_use : Bool
  plays_instant_shell_casing_sound : Bool
  overloads : Bool
  has_random_ammo_on_pickup : Bool
  powerup_is_temporary : Bool
  reloads_in_one_hand : Bool
  fires_out_of_phase : Bool
  fires_under_media : Bool
  triggers_share_ammo : Bool
  secondary_has_angular_flipping : Bool
  deriving DecidableEq, Inhabited

def WeaponFlags.decode (v : Nat) : WeaponFlags :=
  ⟨v.testBit 0, v.testBit 1, v.testBit 2, v.testBit 3, v.testBit 4, v.testBit 5,
   v.testBit 6, v.testBit 7, v.testBit 8, v.testBit 9, v.testBit 10⟩

structure TriggerDefinition : Type where
  rounds_per_magazine : Option Nat
  ammunition_type : Option JValue
  ticks_per_round : Option Nat
  recovery_ticks : Option Nat
  charging_ticks : Option Nat
  recoil_magnitude : Int
  firing_sound : Option JValue
  click_sound : Option JValue
  charging_sound : Option JValue
  shell_casing_sound : Option JValue
  reloading_sound : Option JValue
  charged_sound : Option JValue
  projectile_type : Option JValue
  theta_error : Int
  dx : Int
  dz : Int
  shell_casing_type : Option Nat
  burst_count : Option Nat
  deriving DecidableEq, Inhabited

/-- physics/m2.rs `TriggerDefinition::read` (36-byte self-contained block). -/
def TriggerDefinition.read (dbs : NameDbs) : M TriggerDefinition :=
  mBind read_optional_16 fun rounds_per_magazine =>
  mBind read_optional_16 fun ammunition_type =>
  mBind read_optional_16 fun ticks_per_round =>
  mBind read_optional_16 fun recovery_ticks =>
  mBind read_optional_16 fun charging_ticks =>
  mBind read_fx_6_10 fun recoil_magnitude =>
  mBind read_optional_16 fun firing_sound =>
  mBind read_optional_16 fun click_sound =>
  mBind read_optional_16 fun charging_sound =>
  mBind read_optional_16 fun shell_casing_sound =>
  mBind read_optional_16 fun reloading_sound =>
  mBind read_optional_16 fun charged_sound =>
  mBind read_optional_16 fun projectile_type =>
  mBind read_angle fun theta_error =>
  mBind read_fx_6_10 fun dx =>
  mBind read_fx_6_10 fun dz =>
  mBind read_optional_16 fun shell_casing_type =>
  mBind read_optional_16 fun burst_count =>
  mPure { rounds_per_magazine,
          ammunition_type := ammunition_type.map dbs.item_names.identify,
          ticks_per_round, recovery_ticks, charging_ticks, recoil_magnitude,
          firing_sound := firing_sound.map dbs.sound_names.identify,
          click_sound := click_sound.map dbs.sound_names.identify,
          charging_sound := charging_sound.map dbs.sound_names.identify,
          shell_casing_sound := shell_casing_sound.map dbs.sound_names.identify,
          reloading_sound := reloading_sound.map dbs.sound_names.identify,
          charged_sound := charged_sound.map dbs.sound_names.identify,
          projectile_type := projectile_type.map dbs.projectile_names.identify,
          theta_error, dx, dz, shell_casing_type, burst_count }

structure WeaponDefinition : Type where
  name : JValue
  item_type : Option JValue
  powerup_type : Option JValue
  weapon_class : Option JValue
  flags : WeaponFlags
  firing_light_intensity : Int
  firing_intensity_decay_ticks : Option Nat
  idle_height : Int
  bob_amplitude : Int
  kick_height : Int
  reload_height : Int
  idle_width : Int
  horizontal_amplitude : Int
  collection : Option Nat
  idle_sequence : Option Nat
  firing_sequence : Option Nat
  reloading_sequence : Option Nat
  unused : Nat
  charging_sequence : Option Nat
  charged_sequence : Option Nat
  ready_ticks : Option Nat
  await_reload_ticks : Option Nat
  loading_ticks : Option Nat
  finish_loading_ticks : Option Nat
  powerup_ticks : Option Nat
  triggers : TriggerDefinition × TriggerDefinition
  deriving DecidableEq, Inhabited

/-- physics/m2.rs `WeaponDefinition::read` (134-byte record; the two triggers
are two consecutive self-contained 36-byte blocks). -/
def WeaponDefinition.read (dbs : NameDbs) (index : Nat) : M WeaponDefinition :=
  mBind read_optional_16 fun item_type =>
  mBind read_optional_16 fun powerup_type =>
  mBind read_optional_16 fun weapon_class =>
  mBind (mMap read16 WeaponFlags.decode) fun flags =>
  mBind read_fx_16_16 fun firing_light_intensity =>
  mBind read_optional_16 fun firing_intensity_decay_ticks =>
  mBind read_fx_16_16 fun idle_height =>
  mBind read_fx_16_16 fun bob_amplitude =>
  mBind read_fx_16_16 fun kick_height =>
  mBind read_fx_16_16 fun reload_height =>
  mBind read_fx_16_16 fun idle_width =>
  mBind read_fx_16_16 fun horizontal_amplitude =>
  mBind read_optional_16 fun collection =>
  mBind read_optional_16 fun idle_sequence =>
  mBind read_optional_16 fun firing_sequence =>
  mBind read_optional_16 fun reloading_sequence =>
  mBind read16 fun unused =>
  mBind read_optional_16 fun charging_sequence =>
  mBind read_optional_16 fun charged_sequence =>
  mBind read_optional_16 fun ready_ticks =>
  mBind read_optional_16 fun await_reload_ticks =>
  mBind read_optional_16 fun loading_ticks =>
  mBind read_optional_16 fun finish_loading_ticks =>
  mBind read_optional_16 fun powerup_ticks =>
  mBind (TriggerDefinition.read dbs) fun trigger0 =>
  mBind (TriggerDefinition.read dbs) fun trigger1 =>
  mPure { name := dbs.weapon_names.identify index,
          item_type := item_type.map dbs.item_names.identify,
          powerup_type := powerup_type.map dbs.item_names.identify,
          weapon_class := weapon_class.map dbs.weapon_class_names.identify,
          flags, firing_light_intensity, firing_intensity_decay_ticks,
          idle_height, bob_amplitude, kick_height, reload_height, idle_width,
          horizontal_amplitude, collection, idle_sequence, firing_sequence,
          reloading_sequence, unused, charging_sequence, charged_sequence,
          ready_ticks, await_reload_ticks, loading_ticks, finish_loading_ticks,
          powerup_ticks, triggers := (trigger0, trigger1) }

def SIZE_OF_WEAPON_DEFINITION : Nat := 134

def WeaponDefinition.read_definitions (input : List Nat) (dbs : NameDbs) :
    Except Err (List WeaponDefinition) :=
  readDefinitionsWith SIZE_OF_WEAPON_DEFINITION
    "non-integer number of weapon definitions, or corrupted/misdetected physics file"
    (fun i => WeaponDefinition.read dbs i) input

structure PhysicsDefinition : Type where
  maximum_forward_velocity : Int
  maximum_backward_velocity : Int
  maximum_perpendicular_velocity : Int
  acceleration : Int
  deceleration : Int
  airborne_deceleration : Int
  gravitational_acceleration : Int
  climbing_acceleration : Int
  terminal_velocity : Int
  external_deceleration : Int
  angular_acceleration : Int
  angular_deceleration : Int
  maximum_angular_velocity : Int
  angular_recentering_velocity : Int
  fast_angular_velocity : Int
  fast_angular_maximum : Int
  maximum_elevation : Int
  external_angular_deceleration : Int
  step_delta : Int
  step_amplitude : Int
  radius : Int
  height : Int
  dead_height : Int
  camera_height : Int
  splash_height : Int
  half_camera_separation : Int
  deriving DecidableEq, Inhabited

/-- physics/m2.rs `PhysicsDefinition::read`: 26 consecutive 16.16 values. -/
def PhysicsDefinition.read : M PhysicsDefinition :=
  mBind read_fx_16_16 fun maximum_forward_velocity =>
  mBind read_fx_16_16 fun maximum_backward_velocity =>
  mBind read_fx_16_16 fun maximum_perpendicular_velocity =>
  mBind read_fx_16_16 fun acceleration =>
  mBind read_fx_16_16 fun deceleration =>
  mBind read_fx_16_16 fun airborne_deceleration =>
  mBind read_fx_16_16 fun gravitational_acceleration =>
  mBind read_fx_16_16 fun climbing_acceleration =>
  mBind read_fx_16_16 fun terminal_velocity =>
  mBind read_fx_16_16 fun external_deceleration =>
  mBind read_fx_16_16 fun angular_acceleration =>
  mBind read_fx_16_16 fun angular_deceleration =>
  mBind read_fx_16_16 fun maximum_angular_velocity =>
  mBind read_fx_16_16 fun angular_recentering_velocity =>
  mBind read_fx_16_16 fun fast_angular_velocity =>
  mBind read_fx_16_16 fun fast_angular_maximum =>
  mBind read_fx_16_16 fun maximum_elevation =>
  mBind read_fx_16_16 fun external_angular_deceleration =>
  mBind read_fx_16_16 fun step_delta =>
  mBind read_fx_16_16 fun step_amplitude =>
  mBind read_fx_16_16 fun radius =>
  mBind read_fx_16_16 fun height =>
  mBind read_fx_16_16 fun dead_height =>
  mBind read_fx_16_16 fun camera_height =>
  mBind read_fx_16_16 fun splash_height =>
  mBind read_fx_16_16 fun half_camera_separation =>
  mPure { maximum_forward_velocity, maximum_backward_velocity,
          maximum_perpendicular_velocity, acceleration, deceleration,
          airborne_deceleration, gravitational_acceleration,
          climbing_acceleration, terminal_velocity, external_deceleration,
          angular_acceleration, angular_deceleration, maximum_angular_velocity,
          angular_recentering_velocity, fast_angular_velocity,
          fast_angular_maximum, maximum_elevation, external_angular_deceleration,
          step_delta, step_amplitude, radius, height, dead_height,
          camera_height, splash_height, half_camera_separation }

structure PhysicsDefinitions : Type where
  walking : PhysicsDefinition
  running : PhysicsDefinition
  deriving DecidableEq, Inhabited

def PhysicsDefinitions.read : M PhysicsDefinitions :=
  mBind PhysicsDefinition.read fun walking =>
  mBind PhysicsDefinition.read fun running =>
  mPure { walking, running }

end m2

/-! ### The archive container (src/wad.rs `Wad::read_wad`) and the
newer-generation assembler (src/physics/m2.rs `convert_physics`) -/

/-- `read16` at an absolute position of a seekable source. -/
def read16At (input : List Nat) (pos : Nat) : Option Nat :=
  (readBytesAt input pos 2).map beNat

/-- physics.rs `is_m1_physics`, tag test: the five flat-format tags. -/
def isM1PhysicsTag (buf : List Nat) : Bool :=
  buf == m1.MONSTER_PHYSICS_TAG || buf == m1.EFFECT_PHYSICS_TAG ||
  buf == m1.PROJECTILE_PHYSICS_TAG || buf == m1.PHYSICS_PHYSICS_TAG ||
  buf == m1.WEAPON_PHYSICS_TAG

/-- wad.rs `Wad`. -/
structure Wad : Type where
  wad_version : Nat
  data_version : Nat
  file_name : List Nat
  checksum : Nat
  directory_offset : Nat
  wad_count : Nat
  application_specific_directory_data_size : Nat
  entry_header_size : Nat
  directory_entry_base_size : Nat
  parent_checksum : Nat
  files : List (List Chunk)
  deriving DecidableEq, Inhabited

/-- wad.rs `read_wad`, directory loop: up to 64 slots; a failed offset read is
the normal directory-end condition, any later read failure is an error.  The
argument after the stride is the number of remaining slots, then the current
slot index. -/
def readWadDir (input : List Nat) (dirOff unit : Nat) : Nat → Nat → Except Err (List (List Chunk))
  | 0, _ => .ok []
  | n + 1, i =>
    match read32At input (dirOff + unit * i) with
    | none => .ok []
    | some offset =>
      match read32At input (dirOff + unit * i + 4) with
      | none => .error (.ioError "unable to read WAD directory entry")
      | some length =>
        match readBytesAt input offset length with
        | none => .error (.ioError "unable to read a subfile in WAD")
        | some data =>
          match read_m2_chunks data with
          | .error e => .error e
          | .ok chunks => (readWadDir input dirOff unit n (i + 1)).map (chunks :: ·)

/-- wad.rs `Wad::read_wad`.  Header layout (all big-endian): version(2),
data version(2), 64-byte name, checksum(4), directory offset(4), count(2),
application-specific size(2), entry header size(2), directory-entry base
size(2), parent checksum(4).  When the container version is at most
`WADFILE_HAS_DIRECTORY_ENTRY = 1` the declared base size is replaced by 8. -/
def read_wad (input : List Nat) : Except Err Wad :=
  match readBytesAt input 0 4 with
  | none => .error (.ioError "unable to check for a Marathon 1 physics file")
  | some buf =>
    if isM1PhysicsTag buf then .error .m1NotWad
    else
      match read16At input 0, read16At input 2, readBytesAt input 4 64,
            read32At input 68, read32At input 72, read16At input 76,
            read16At input 78, read16At input 80, read16At input 82,
            read32At input 84 with
      | some wad_version, some data_version, some file_name, some checksum,
        some directory_offset, some wad_count,
        some application_specific_directory_data_size, some entry_header_size,
        some declared_base_size, some parent_checksum =>
        let directory_entry_base_size := if wad_version ≤ 1 then 8 else declared_base_size
        let unit_size := application_specific_directory_data_size + directory_entry_base_size
        match readWadDir input directory_offset unit_size 64 0 with
        | .error e => .error e
        | .ok files =>
          .ok { wad_version, data_version, file_name, checksum,
                directory_offset, wad_count,
                application_specific_directory_data_size, entry_header_size,
                directory_entry_base_size, parent_checksum, files }
      | _, _, _, _, _, _, _, _, _, _ => .error (.ioError "unable to read WAD header")

namespace m2

/-- physics/m2.rs `PhysicsDefinitions::read` applied to a chunk payload slice
(extra bytes after the two blocks are ignored, a short payload is an error). -/
def PhysicsDefinitions.read_payload (input : List Nat) : Except Err PhysicsDefinitions :=
  match PhysicsDefinitions.read input with
  | some (p, _) => .ok p
  | none => .error (.ioError "unable to read physics definitions")

structure Physics : Type where
  monster_definitions : List MonsterDefinition
  effect_definitions : List EffectDefinition
  projectile_definitions : List ProjectileDefinition
  weapon_definitions : List WeaponDefinition
  physics : PhysicsDefinitions
  deriving DecidableEq, Inhabited

/-- physics/m2.rs `convert_physics` (minus the JSON serialization boundary):
read the archive, then locate and decode the five required chunks of the first
subfile, `physics_wad.files[0]`.  That indexing is unchecked in the source: on
an archive whose directory scan produced no subfiles the program aborts rather
than returning an error, modelled here by the `none` result. -/
def convert_physics (input : List Nat) (dbs : NameDbs) : Option (Except Err Physics) :=
  match read_wad input with
  | .error e => some (.error e)
  | .ok physics_wad =>
    match physics_wad.files with
    | [] => none
    | f0 :: _ =>
      some (do
        let monster_definitions ← Except.bind (Chunk.find f0 MONSTER_PHYSICS_TAG)
          (fun x => MonsterDefinition.read_definitions x dbs)
        let effect_definitions ← Except.bind (Chunk.find f0 EFFECT_PHYSICS_TAG)
          (fun x => EffectDefinition.read_definitions x dbs)
        let projectile_definitions ← Except.bind (Chunk.find f0 PROJECTILE_PHYSICS_TAG)
          (fun x => ProjectileDefinition.read_definitions x dbs)
        let weapon_definitions ← Except.bind (Chunk.find f0 WEAPON_PHYSICS_TAG)
          (fun x => WeaponDefinition.read_definitions x dbs)
        let physics ← Except.bind (Chunk.find f0 PHYSICS_PHYSICS_TAG)
          (fun x => PhysicsDefinitions.read_payload x)
        pure { monster_definitions, effect_definitions, projectile_definitions,
               weapon_definitions, physics })

end m2

/-! ### Claim theorems -/

/-- The sentinel test `v &&& 0x8000 != 0` used by both optional readers is the
test of bit 15 of the word. -/
theorem and_0x8000_ne_zero_iff (v : Nat) : v &&& 0x8000 ≠ 0 ↔ v.testBit 15 = true := by
  have h : v &&& 0x8000 = (v.testBit 15).toNat * 2 ^ 15 := by
    have := Nat.and_two_pow v 15
    norm_num at this ⊢
    exact this
  rw [h]
  cases hb : v.testBit 15 <;> simp

/-- C5: `read_optional_32` decodes a 32-bit big-endian word and is absent
exactly when bit 15 (mask 0x8000) of that word is set — not bit 31; whenever
bit 15 is clear — regardless of any higher bits, so including every value at
or above 2^16 — the result is present and carries the full word unmodified. -/
theorem C5_read_optional_32_bit15 (b0 b1 b2 b3 : Nat) (rest : List Nat) :
    (read_optional_32 (b0 :: b1 :: b2 :: b3 :: rest) = some (none, rest) ↔
      (((b0 * 256 + b1) * 256 + b2) * 256 + b3).testBit 15 = true) ∧
    ((((b0 * 256 + b1) * 256 + b2) * 256 + b3).testBit 15 = false →
      read_optional_32 (b0 :: b1 :: b2 :: b3 :: rest) =
        some (some (((b0 * 256 + b1) * 256 + b2) * 256 + b3), rest)) := by
  have hread : read_optional_32 (b0 :: b1 :: b2 :: b3 :: rest) =
      some ((if ((b0 * 256 + b1) * 256 + b2) * 256 + b3 &&& 0x8000 ≠ 0 then none
             else some (((b0 * 256 + b1) * 256 + b2) * 256 + b3)), rest) := by
    simp [read_optional_32, mMap, mBind, mPure, read32]
  constructor
  · rw [hread]
    cases hb : (((b0 * 256 + b1) * 256 + b2) * 256 + b3).testBit 15 with
    | true =>
      have hand := (and_0x8000_ne_zero_iff _).mpr hb
      simp [hand]
    | false =>
      have hand : ¬ (((b0 * 256 + b1) * 256 + b2) * 256 + b3 &&& 0x8000 ≠ 0) := by
        intro hc
        rw [(and_0x8000_ne_zero_iff _).mp hc] at hb
        exact Bool.noConfusion hb
      simp [hand]
  · intro hb
    have hand : ¬ (((b0 * 256 + b1) * 256 + b2) * 256 + b3 &&& 0x8000 ≠ 0) := by
      intro hc
      rw [(and_0x8000_ne_zero_iff _).mp hc] at hb
      exact Bool.noConfusion hb
    rw [hread]
    simp [hand]

/-- C5 witness: the word 0x00010000 (at 2^16, bit 31 region untouched, bit 15
clear) decodes as present with its raw value, and the word 0x80000000 (bit 31
set, bit 15 clear) also decodes as present. -/
theorem C5_witness :
    (65536).testBit 15 = false ∧
    read_optional_32 [0, 1, 0, 0] = some (some 65536, []) ∧
    (2147483648).testBit 15 = false ∧
    read_optional_32 [128, 0, 0, 0] = some (some 2147483648, []) :=
  ⟨by decide, (C5_read_optional_32_bit15 0 1 0 0 []).2 (by decide),
   by decide, (C5_read_optional_32_bit15 128 0 0 0 []).2 (by decide)⟩

/-- C8: `Chunk::find` returns the payload of the first chunk in read order
whose tag matches, even when chunks with the same tag occur later; when no
chunk matches, it fails with the chunk-not-found error. -/
theorem C8_find_first_match (kind : List Nat) :
    (∀ (pre post : List Chunk) (c : Chunk), (∀ x ∈ pre, x.kind ≠ kind) →
      c.kind = kind → Chunk.find (pre ++ c :: post) kind = .ok c.data) ∧
    (∀ chunks : List Chunk, (∀ x ∈ chunks, x.kind ≠ kind) →
      Chunk.find chunks kind = .error (.chunkNotFound kind)) := by
  constructor
  · intro pre post c hpre hc
    induction pre with
    | nil => simp [Chunk.find, hc]
    | cons a as ih =>
      have ha : a.kind ≠ kind := hpre a (by simp)
      simp only [List.cons_append, Chunk.find, if_neg ha]
      exact ih (fun x hx => hpre x (by simp [hx]))
  · intro chunks h
    induction chunks with
    | nil => rfl
    | cons a as ih =>
      have ha : a.kind ≠ kind := h a (by simp)
      simp only [Chunk.find, if_neg ha]
      exact ih (fun x hx => h x (by simp [hx]))

/-- C8 witness: a list with a non-matching chunk first, a matching chunk, and
a later duplicate of the same tag yields the first match's payload; a list
without the tag yields the chunk-not-found error. -/
theorem C8_witness :
    Chunk.find [⟨[66, 66, 66, 66], [1]⟩, ⟨[65, 65, 65, 65], [2]⟩,
                ⟨[65, 65, 65, 65], [3]⟩] [65, 65, 65, 65] = .ok [2] ∧
    Chunk.find [⟨[66, 66, 66, 66], [1]⟩] [65, 65, 65, 65] =
      .error (.chunkNotFound [65, 65, 65, 65]) :=
  ⟨(C8_find_first_match [65, 65, 65, 65]).1 [⟨[66, 66, 66, 66], [1]⟩]
    [⟨[65, 65, 65, 65], [3]⟩] ⟨[65, 65, 65, 65], [2]⟩ (by decide) rfl,
   (C8_find_first_match [65, 65, 65, 65]).2 [⟨[66, 66, 66, 66], [1]⟩] (by decide)⟩

/-- The shared `read_definitions` shape always fails with the size-mismatch
error when the payload length is not a multiple of the record size. -/
theorem readDefinitionsWith_mod_ne {α : Type} (size : Nat) (msg : String)
    (readOne : Nat → M α) (input : List Nat) (h : input.length % size ≠ 0) :
    readDefinitionsWith size msg readOne input = .error (.sizeMismatch msg) := by
  simp [readDefinitionsWith, h]

/-- C4: for every entity kind and generation, a chunk payload whose length is
not a multiple of that pair's fixed record size makes `read_definitions` fail
with the size-mismatch error (monster 138/156, effect 6/14, projectile 36/48,
weapon 120/134 bytes for the older/newer generation), returning no records. -/
theorem C4_read_definitions_size_mismatch :
    (∀ (input : List Nat) (dbs : NameDbs), input.length % 138 ≠ 0 →
      m1.MonsterDefinition.read_definitions input dbs = .error (.sizeMismatch
        "non-integer number of monster definitions, or corrupted/misdetected physics file")) ∧
    (∀ (input : List Nat) (dbs : NameDbs), input.length % 6 ≠ 0 →
      m1.EffectDefinition.read_definitions input dbs = .error (.sizeMismatch
        "non-integer number of effect definitions, or corrupted/misdetected physics file")) ∧
    (∀ (input : List Nat) (dbs : NameDbs), input.length % 36 ≠ 0 →
      m1.ProjectileDefinition.read_definitions input dbs = .error (.sizeMismatch
        "non-integer number of projectile definitions, or corrupted/misdetected physics file")) ∧
    (∀ (input : List Nat) (dbs : NameDbs), input.length % 120 ≠ 0 →
      m1.WeaponDefinition.read_definitions input dbs = .error (.sizeMismatch
        "non-integer number of weapon definitions, or corrupted/misdetected physics file")) ∧
    (∀ (input : List Nat) (dbs : NameDbs), input.length % 156 ≠ 0 →
      m2.MonsterDefinition.read_definitions input dbs = .error (.sizeMismatch
        "non-integer number of monster definitions, or corrupted/misdetected physics file")) ∧
    (∀ (input : List Nat) (dbs : NameDbs), input.length % 14 ≠ 0 →
      m2.EffectDefinition.read_definitions input dbs = .error (.sizeMismatch
        "non-integer number of effect definitions, or corrupted/misdetected physics file")) ∧
    (∀ (input : List Nat) (dbs : NameDbs), input.length % 48 ≠ 0 →
      m2.ProjectileDefinition.read_definitions input dbs = .error (.sizeMismatch
        "non-integer number of projectile definitions, or corrupted/misdetected physics file")) ∧
    (∀ (input : List Nat) (dbs : NameDbs), input.length % 134 ≠ 0 →
      m2.WeaponDefinition.read_definitions input dbs = .error (.sizeMismatch
        "non-integer number of weapon definitions, or corrupted/misdetected physics file")) := by
  refine ⟨?_, ?_, ?_, ?_, ?_, ?_, ?_, ?_⟩ <;>
    exact fun input dbs h => readDefinitionsWith_mod_ne _ _ _ input h

/-- C4 witness: a 1-byte payload is not a multiple of 138, so the older
generation's monster decoder rejects it with the size-mismatch error. -/
theorem C4_witness :
    (1 : Nat) % 138 ≠ 0 ∧
    m1.MonsterDefinition.read_definitions [0] NameDbs.default = .error (.sizeMismatch
      "non-integer number of monster definitions, or corrupted/misdetected physics file") :=
  ⟨by decide, C4_read_definitions_size_mismatch.1 [0] NameDbs.default (by decide)⟩

/-- C7: whenever the embedded chunk header that `read_m2_chunks` is about to
parse (at any loop state: any position, pending next-offset, and chunks read
so far) has a nonzero 32-bit reserved ("unknown offset") field, the loop
aborts with the malformed-container error carrying the offending chunk's index
within the subfile (the number of chunks read so far), its 4-byte tag, and the
byte-offset value the message prints, and returns no chunk list. -/
theorem C7_nonzero_reserved_aborts (input : List Nat) (fuel pos nextOff : Nat)
    (acc : List Chunk) (p : Nat) (kind : List Nat) (nextOff2 length unknown : Nat)
    (hp : p = if nextOff ≠ 0 then nextOff else pos)
    (h1 : readBytesAt input p 4 = some kind)
    (h2 : read32At input (p + 4) = some nextOff2)
    (h3 : read32At input (p + 8) = some length)
    (h4 : read32At input (p + 12) = some unknown)
    (h5 : unknown ≠ 0) :
    readM2Loop input (fuel + 1) pos nextOff acc =
      .error (.nonzeroUnknown acc.length kind nextOff) := by
  subst hp
  simp only [readM2Loop, h1, h2, h3, h4, if_pos h5]

/-- C7 witness: a subfile whose very first chunk header carries tag "AAAA" and
reserved word 1 makes `read_m2_chunks` fail with the malformed-container error
naming chunk index 0, the tag, and offset 0. -/
theorem C7_witness :
    read_m2_chunks [65, 65, 65, 65, 0, 0, 0, 0, 0, 0, 0, 0, 0, 0, 0, 1] =
      .error (.nonzeroUnknown 0 [65, 65, 65, 65] 0) :=
  C7_nonzero_reserved_aborts [65, 65, 65, 65, 0, 0, 0, 0, 0, 0, 0, 0, 0, 0, 0, 1]
    16 0 0 [] 0 [65, 65, 65, 65] 0 0 1 (by decide) (by decide) (by decide)
    (by decide) (by decide) (by decide)

/-- C6: when `read_wad` succeeds, the effective directory-entry base size it
used (returned in the `Wad` and feeding the directory stride together with the
per-entry extra-data size) is 8 whenever the container version is at most 1,
irrespective of the base-size value declared at header offset 82; for
container versions greater than 1 it is exactly the declared value. -/
theorem C6_base_size_override (input : List Nat) (w : Wad)
    (h : read_wad input = .ok w) :
    (w.wad_version ≤ 1 → w.directory_entry_base_size = 8) ∧
    (1 < w.wad_version → read16At input 82 = some w.directory_entry_base_size) := by
  unfold read_wad at h
  split at h
  all_goals try exact Except.noConfusion h
  split at h
  all_goals try exact Except.noConfusion h
  split at h
  all_goals try exact Except.noConfusion h
  rename_i wv dv fn cs dof wc appsz ehs dbs pc hv hd hf hcs hdo hwc happ hehs hdb hpc
  split at h
  · rename_i hif
    dsimp only at h
    split at h
    all_goals try exact Except.noConfusion h
    cases h
    dsimp only
    exact ⟨fun _ => rfl, fun hgt => absurd hif (by omega)⟩
  · rename_i hif
    dsimp only at h
    split at h
    all_goals try exact Except.noConfusion h
    cases h
    dsimp only
    exact ⟨fun hle => absurd hle hif, fun _ => hdb⟩

instance {ε α : Type} [DecidableEq ε] [DecidableEq α] : DecidableEq (Except ε α) := fun a b => by
  cases a <;> cases b
  case error.error e f => exact decidable_of_iff (e = f) (by simp)
  case error.ok e y => exact isFalse (by simp)
  case ok.error x f => exact isFalse (by simp)
  case ok.ok x y => exact decidable_of_iff (x = y) (by simp)

/-- An 88-byte archive header with container version 0, declared base size 23,
and a directory offset past the end of the input (so the first directory-entry
read fails, ending the scan with no subfiles). -/
def c6Input : List Nat :=
  [0, 0] ++ [0, 0] ++ List.replicate 64 0 ++ [0, 0, 0, 0] ++ [0, 0, 3, 232] ++
  [0, 0] ++ [0, 0] ++ [0, 0] ++ [0, 23] ++ [0, 0, 0, 0]

def c6Wad : Wad :=
  match read_wad c6Input with
  | .ok w => w
  | .error _ => default

/-- C6 witness: on `c6Input` (version 0, declared base size 23) `read_wad`
succeeds and the effective directory-entry base size is 8. -/
theorem C6_witness :
    read_wad c6Input = .ok c6Wad ∧ c6Wad.wad_version = 0 ∧
    read16At c6Input 82 = some 23 ∧ c6Wad.directory_entry_base_size = 8 :=
  ⟨by decide, by decide, by decide,
   (C6_base_size_override c6Input c6Wad (by decide)).1 (by decide)⟩

/-- C9: the newer-generation assembler indexes `physics_wad.files[0]` without
a bounds check; on every archive input whose directory scan yields zero
subfiles (which `read_wad` reports as a normal success with an empty subfile
list) the assembler aborts — modelled as `none` — instead of returning any
`Except` error value.  Equivalently, `convert_physics` requires at least one
subfile as a precondition. -/
theorem C9_empty_archive_panics (input : List Nat) (dbs : NameDbs) (w : Wad)
    (h : read_wad input = .ok w) (hf : w.files = []) :
    m2.convert_physics input dbs = none := by
  unfold m2.convert_physics
  rw [h]
  dsimp only
  rw [hf]

/-- An 88-byte archive header with container version 2 and a directory offset
past the end of the input: the first directory-entry offset read fails, the
scan ends normally, and the archive parses with zero subfiles. -/
def c9Input : List Nat :=
  [0, 2] ++ [0, 0] ++ List.replicate 64 0 ++ [0, 0, 0, 0] ++ [0, 0, 0, 200] ++
  [0, 0] ++ [0, 0] ++ [0, 0] ++ [0, 8] ++ [0, 0, 0, 0]

def c9Wad : Wad :=
  match read_wad c9Input with
  | .ok w => w
  | .error _ => default

/-- C9 witness: `c9Input` really is accepted by `read_wad` with an empty
subfile list, and on it the assembler aborts. -/
theorem C9_witness :
    read_wad c9Input = .ok c9Wad ∧ c9Wad.files = [] ∧
    m2.convert_physics c9Input NameDbs.default = none :=
  ⟨by decide, by decide,
   C9_empty_archive_panics c9Input NameDbs.default c9Wad (by decide) (by decide)⟩

/-- Every value the older-generation weapon reader can produce has an absent
reloading sound on the second trigger and the first trigger's charging sound
copied into the second trigger. -/
theorem weapon_m1_trigger1_produced (dbs : NameDbs) (index : Nat) :
    Produces (m1.WeaponDefinition.read dbs index) (fun w =>
      w.triggers.2.reloading_sound = none ∧
      w.triggers.2.charging_sound = w.triggers.1.charging_sound) := by
  unfold m1.WeaponDefinition.read
  repeat refine produces_bind fun x => ?_
  exact produces_pure ⟨rfl, rfl⟩

/-- C10: in the older generation the wire format carries a reloading-sound and
a charging-sound field only once, not per trigger: for every input byte
source, index and name database, a successfully decoded weapon's second
trigger always has an absent reloading sound, and its charging sound always
equals the first trigger's charging sound. -/
theorem C10_weapon_m1_second_trigger (dbs : NameDbs) (index : Nat)
    (s : List Nat) (w : m1.WeaponDefinition) (rest : List Nat)
    (h : m1.WeaponDefinition.read dbs index s = some (w, rest)) :
    w.triggers.2.reloading_sound = none ∧
    w.triggers.2.charging_sound = w.triggers.1.charging_sound :=
  weapon_m1_trigger1_produced dbs index s w rest h

def c10Decoded : m1.WeaponDefinition :=
  match m1.WeaponDefinition.read NameDbs.default 0 (List.replicate 120 0) with
  | some (w, _) => w
  | none => default

/-- C10 witness: the all-zero 120-byte weapon record decodes, and the decoded
weapon's second trigger has an absent reloading sound and the first trigger's
charging sound. -/
theorem C10_witness :
    c10Decoded.triggers.2.reloading_sound = none ∧
    c10Decoded.triggers.2.charging_sound = c10Decoded.triggers.1.charging_sound := by
  have h : m1.WeaponDefinition.read NameDbs.default 0 (List.replicate 120 0) =
      some (c10Decoded, []) := by decide
  exact C10_weapon_m1_second_trigger NameDbs.default 0 (List.replicate 120 0) c10Decoded [] h

/-! ### Each record reader consumes exactly its declared record size -/

theorem consumes_bind_k {α β : Type} {p : M α} {f : α → M β} {n : Nat} {k : Nat}
    (hp : Consumes p n) (hf : ∀ a, Consumes (f a) (k - n)) (hk : n ≤ k) :
    Consumes (mBind p f) k := by
  have h := consumes_bind hp hf
  exact consumes_of_eq _ _ h (by omega)

theorem consumes_pure_zero {α : Type} (a : α) {k : Nat} (h : k = 0) :
    Consumes (mPure a) k := consumes_of_eq _ _ (consumes_pure a) h.symm

theorem consumes_m1_damage (dbs : NameDbs) : Consumes (m1.DamageDefinition.read dbs) 12 := by
  unfold m1.DamageDefinition.read m1.DamageDefinitionFlags.read
  repeat
    first
    | exact consumes_pure_zero _ (by norm_num)
    | refine consumes_bind_k consumes_opt16 (fun x => ?_) (by norm_num)
    | refine consumes_bind_k consumes_opt32 (fun x => ?_) (by norm_num)
    | refine consumes_bind_k consumes_optfx610 (fun x => ?_) (by norm_num)
    | refine consumes_bind_k consumes_bitfield32 (fun x => ?_) (by norm_num)
    | refine consumes_bind_k consumes_fx1616 (fun x => ?_) (by norm_num)
    | refine consumes_bind_k consumes_fx610 (fun x => ?_) (by norm_num)
    | refine consumes_bind_k consumes_angle (fun x => ?_) (by norm_num)
    | refine consumes_bind_k (consumes_mMap _ consumes_read16) (fun x => ?_) (by norm_num)
    | refine consumes_bind_k (consumes_mMap _ consumes_read32) (fun x => ?_) (by norm_num)
    | refine consumes_bind_k consumes_read16 (fun x => ?_) (by norm_num)
    | refine consumes_bind_k consumes_read32 (fun x => ?_) (by norm_num)

theorem consumes_m1_monster_flags : Consumes m1.MonsterFlags.read 4 :=
  consumes_mMap _ consumes_read32

theorem consumes_m1_attack (dbs : NameDbs) : Consumes (m1.AttackDefinition.read dbs) 16 := by
  unfold m1.AttackDefinition.read
  repeat
    first
    | exact consumes_pure_zero _ (by norm_num)
    | refine consumes_bind_k consumes_opt16 (fun x => ?_) (by norm_num)
    | refine consumes_bind_k consumes_fx610 (fun x => ?_) (by norm_num)
    | refine consumes_bind_k consumes_angle (fun x => ?_) (by norm_num)

theorem consumes_m1_monster (dbs : NameDbs) (index : Nat) :
    Consumes (m1.MonsterDefinition.read dbs index) 138 := by
  unfold m1.MonsterDefinition.read
  repeat
    first
    | exact consumes_pure_zero _ (by norm_num)
    | refine consumes_bind_k consumes_opt16 (fun x => ?_) (by norm_num)
    | refine consumes_bind_k consumes_opt32 (fun x => ?_) (by norm_num)
    | refine consumes_bind_k consumes_optfx610 (fun x => ?_) (by norm_num)
    | refine consumes_bind_k consumes_bitfield32 (fun x => ?_) (by norm_num)
    | refine consumes_bind_k consumes_fx1616 (fun x => ?_) (by norm_num)
    | refine consumes_bind_k consumes_fx610 (fun x => ?_) (by norm_num)
    | refine consumes_bind_k consumes_angle (fun x => ?_) (by norm_num)
    | refine consumes_bind_k consumes_m1_monster_flags (fun x => ?_) (by norm_num)
    | refine consumes_bind_k (consumes_m1_damage dbs) (fun x => ?_) (by norm_num)
    | refine consumes_bind_k (consumes_m1_attack dbs) (fun x => ?_) (by norm_num)

theorem consumes_m1_effect (dbs : NameDbs) (index : Nat) :
    Consumes (m1.EffectDefinition.read dbs index) 6 := by
  unfold m1.EffectDefinition.read
  repeat
    first
    | exact consumes_pure_zero _ (by norm_num)
    | refine consumes_bind_k consumes_opt16 (fun x => ?_) (by norm_num)
    | refine consumes_bind_k (consumes_mMap _ consumes_read16) (fun x => ?_) (by norm_num)

theorem consumes_m1_projectile (dbs : NameDbs) (index : Nat) :
    Consumes (m1.ProjectileDefinition.read dbs index) 36 := by
  unfold m1.ProjectileDefinition.read
  repeat
    first
    | exact consumes_pure_zero _ (by norm_num)
    | refine consumes_bind_k consumes_opt16 (fun x => ?_) (by norm_num)
    | refine consumes_bind_k consumes_fx610 (fun x => ?_) (by norm_num)
    | refine consumes_bind_k (consumes_m1_damage dbs) (fun x => ?_) (by norm_num)
    | refine consumes_bind_k (consumes_mMap _ consumes_read16) (fun x => ?_) (by norm_num)

theorem consumes_m1_weapon (dbs : NameDbs) (index : Nat) :
    Consumes (m1.WeaponDefinition.read dbs index) 120 := by
  unfold m1.WeaponDefinition.read
  repeat
    first
    | exact consumes_pure_zero _ (by norm_num)
    | refine consumes_bind_k consumes_opt16 (fun x => ?_) (by norm_num)
    | refine consumes_bind_k consumes_fx1616 (fun x => ?_) (by norm_num)
    | refine consumes_bind_k consumes_fx610 (fun x => ?_) (by norm_num)
    | refine consumes_bind_k consumes_angle (fun x => ?_) (by norm_num)
    | refine consumes_bind_k (consumes_mMap _ consumes_read16) (fun x => ?_) (by norm_num)
    | refine consumes_bind_k consumes_read16 (fun x => ?_) (by norm_num)

theorem consumes_m2_monster_flags : Consumes m2.MonsterFlags.read 4 :=
  consumes_mMap _ consumes_read32

theorem consumes_m2_damage (dbs : NameDbs) : Consumes (m2.DamageDefinition.read dbs) 12 := by
  unfold m2.DamageDefinition.read m2.DamageDefinitionFlags.read
  repeat
    first
    | exact consumes_pure_zero _ (by norm_num)
    | refine consumes_bind_k consumes_opt16 (fun x => ?_) (by norm_num)
    | refine consumes_bind_k consumes_fx1616 (fun x => ?_) (by norm_num)
    | refine consumes_bind_k (consumes_mMap _ consumes_read16) (fun x => ?_) (by norm_num)
    | refine consumes_bind_k consumes_read16 (fun x => ?_) (by norm_num)

theorem consumes_m2_attack (dbs : NameDbs) : Consumes (m2.AttackDefinition.read dbs) 16 := by
  unfold m2.AttackDefinition.read
  repeat
    first
    | exact consumes_pure_zero _ (by norm_num)
    | refine consumes_bind_k consumes_opt16 (fun x => ?_) (by norm_num)
    | refine consumes_bind_k consumes_fx610 (fun x => ?_) (by norm_num)
    | refine consumes_bind_k consumes_angle (fun x => ?_) (by norm_num)

theorem consumes_m2_monster (dbs : NameDbs) (index : Nat) :
    Consumes (m2.MonsterDefinition.read dbs index) 156 := by
  unfold m2.MonsterDefinition.read
  repeat
    first
    | exact consumes_pure_zero _ (by norm_num)
    | refine consumes_bind_k consumes_opt16 (fun x => ?_) (by norm_num)
    | refine consumes_bind_k consumes_opt32 (fun x => ?_) (by norm_num)
    | refine consumes_bind_k consumes_optfx610 (fun x => ?_) (by norm_num)
    | refine consumes_bind_k consumes_bitfield32 (fun x => ?_) (by norm_num)
    | refine consumes_bind_k consumes_fx1616 (fun x => ?_) (by norm_num)
    | refine consumes_bind_k consumes_fx610 (fun x => ?_) (by norm_num)
    | refine consumes_bind_k consumes_angle (fun x => ?_) (by norm_num)
    | refine consumes_bind_k consumes_m2_monster_flags (fun x => ?_) (by norm_num)
    | refine consumes_bind_k (consumes_m2_damage dbs) (fun x => ?_) (by norm_num)
    | refine consumes_bind_k (consumes_m2_attack dbs) (fun x => ?_) (by norm_num)

theorem consumes_m2_effect (dbs : NameDbs) (index : Nat) :
    Consumes (m2.EffectDefinition.read dbs index) 14 := by
  unfold m2.EffectDefinition.read
  repeat
    first
    | exact consumes_pure_zero _ (by norm_num)
    | refine consumes_bind_k consumes_opt16 (fun x => ?_) (by norm_num)
    | refine consumes_bind_k consumes_fx1616 (fun x => ?_) (by norm_num)
    | refine consumes_bind_k (consumes_mMap _ consumes_read16) (fun x => ?_) (by norm_num)

theorem consumes_m2_projectile (dbs : NameDbs) (index : Nat) :
    Consumes (m2.ProjectileDefinition.read dbs index) 48 := by
  unfold m2.ProjectileDefinition.read
  repeat
    first
    | exact consumes_pure_zero _ (by norm_num)
    | refine consumes_bind_k consumes_opt16 (fun x => ?_) (by norm_num)
    | refine consumes_bind_k consumes_fx610 (fun x => ?_) (by norm_num)
    | refine consumes_bind_k consumes_fx1616 (fun x => ?_) (by norm_num)
    | refine consumes_bind_k (consumes_m2_damage dbs) (fun x => ?_) (by norm_num)
    | refine consumes_bind_k (consumes_mMap _ consumes_read32) (fun x => ?_) (by norm_num)

theorem consumes_m2_trigger (dbs : NameDbs) : Consumes (m2.TriggerDefinition.read dbs) 36 := by
  unfold m2.TriggerDefinition.read
  repeat
    first
    | exact consumes_pure_zero _ (by norm_num)
    | refine consumes_bind_k consumes_opt16 (fun x => ?_) (by norm_num)
    | refine consumes_bind_k consumes_fx610 (fun x => ?_) (by norm_num)
    | refine consumes_bind_k consumes_angle (fun x => ?_) (by norm_num)

theorem consumes_m2_weapon (dbs : NameDbs) (index : Nat) :
    Consumes (m2.WeaponDefinition.read dbs index) 134 := by
  unfold m2.WeaponDefinition.read
  repeat
    first
    | exact consumes_pure_zero _ (by norm_num)
    | refine consumes_bind_k consumes_opt16 (fun x => ?_) (by norm_num)
    | refine consumes_bind_k consumes_fx1616 (fun x => ?_) (by norm_num)
    | refine consumes_bind_k (consumes_m2_trigger dbs) (fun x => ?_) (by norm_num)
    | refine consumes_bind_k (consumes_mMap _ consumes_read16) (fun x => ?_) (by norm_num)
    | refine consumes_bind_k consumes_read16 (fun x => ?_) (by norm_num)

theorem range_map_shift {β : Type} (F : Nat → β) (j k : Nat) :
    (List.range (k + 1)).map (fun d => F (j + d)) =
      F j :: (List.range k).map (fun d => F ((j + 1) + d)) := by
  rw [List.range_succ_eq_map, List.map_cons, List.map_map]
  refine congrArg₂ List.cons (congrArg F (Nat.add_zero j)) ?_
  refine List.map_congr_left ?_
  intro d _
  exact congrArg F (by omega)

theorem sliceAt_length (input : List Nat) (size i : Nat)
    (h : (i + 1) * size ≤ input.length) : (sliceAt input size i).length = size := by
  simp only [sliceAt, List.length_take, List.length_drop]
  have : i * size + size ≤ input.length := by
    calc i * size + size = (i + 1) * size := by ring
    _ ≤ input.length := h
  omega

/-- When each of slices `j, ..., j+k-1` decodes (consuming the whole slice) to
the record given by `G`, `readSlices` succeeds with exactly those records in
slice order. -/
theorem readSlices_of_reads {α : Type} (readOne : Nat → M α) (size : Nat)
    (input : List Nat) (G : Nat → α) :
    ∀ (k j : Nat),
    (∀ d, d < k → readOne (j + d) (sliceAt input size (j + d)) = some (G (j + d), [])) →
    readSlices readOne size input j k = .ok ((List.range k).map (fun d => G (j + d))) := by
  intro k
  induction k with
  | zero => intro j _; rfl
  | succ k ih =>
    intro j h
    have h0 : readOne j (sliceAt input size j) = some (G j, []) := by
      have := h 0 (by omega)
      simpa using this
    have htail : ∀ d, d < k →
        readOne ((j + 1) + d) (sliceAt input size ((j + 1) + d)) = some (G ((j + 1) + d), []) := by
      intro d hd
      have hh := h (d + 1) (by omega)
      have e : j + (d + 1) = (j + 1) + d := by omega
      rw [e] at hh
      exact hh
    simp only [readSlices, h0, ih (j + 1) htail, range_map_shift G j k, Except.map]

/-- When every record read consumes exactly `size` bytes, decoding `k` slices
starting at slice `j` inside a payload long enough succeeds and yields, in
order, exactly the record decoded from each slice with its own slice index. -/
theorem readSlices_complete {α : Type} [Inhabited α] (readOne : Nat → M α) (size : Nat)
    (hc : ∀ i, Consumes (readOne i) size) (input : List Nat)
    (k j : Nat) (h : (j + k) * size ≤ input.length) :
    readSlices readOne size input j k =
      .ok ((List.range k).map (fun d =>
        ((readOne (j + d) (sliceAt input size (j + d))).map Prod.fst).getD default)) := by
  apply readSlices_of_reads readOne size input
    (fun t => ((readOne t (sliceAt input size t)).map Prod.fst).getD default) k j
  intro d hd
  have hsl : (sliceAt input size (j + d)).length = size := by
    apply sliceAt_length
    calc (j + d + 1) * size ≤ (j + k) * size := Nat.mul_le_mul_right size (by omega)
    _ ≤ input.length := h
  obtain ⟨a, ha⟩ := hc (j + d) (sliceAt input size (j + d)) (by omega)
  have hdrop : (sliceAt input size (j + d)).drop size = [] :=
    List.drop_eq_nil_of_le (by omega)
  rw [hdrop] at ha
  rw [ha]
  simp [ha]

/-- The shared `read_definitions` shape, on a payload of exactly `k` records
whose reader always consumes exactly `size` bytes: it succeeds and returns the
`k` records decoded, in order, from the `k` consecutive disjoint slices, the
`i`-th record decoded from slice `i` with `i` as its index argument. -/
theorem readDefinitionsWith_complete {α : Type} [Inhabited α] (size : Nat) (msg : String)
    (readOne : Nat → M α) (hsize : 0 < size) (hc : ∀ i, Consumes (readOne i) size)
    (input : List Nat) (k : Nat) (hlen : input.length = k * size) :
    readDefinitionsWith size msg readOne input =
      .ok ((List.range k).map (fun i =>
        ((readOne i (sliceAt input size i)).map Prod.fst).getD default)) := by
  unfold readDefinitionsWith
  have hmod : input.length % size = 0 := by
    rw [hlen]
    exact Nat.mul_mod_left k size
  rw [if_neg (by omega)]
  have hdiv : input.length / size = k := by
    rw [hlen]
    exact Nat.mul_div_cancel k hsize
  rw [hdiv]
  have h := readSlices_complete readOne size hc input k 0
    (by rw [Nat.zero_add, ← hlen])
  simpa using h

/-- C3: for every entity kind and generation, a chunk payload of length
exactly `k` times that pair's record size makes `read_definitions` succeed
with exactly `k` records, the `i`-th being the record decoded from the `i`-th
consecutive `size`-byte slice with `i` supplied as its identity index and
name-resolution key (monster 138/156, effect 6/14, projectile 36/48, weapon
120/134 bytes for the older/newer generation). -/
theorem C3_read_definitions_complete :
    (∀ (input : List Nat) (dbs : NameDbs) (k : Nat), input.length = k * 138 →
      m1.MonsterDefinition.read_definitions input dbs = .ok ((List.range k).map (fun i =>
        ((m1.MonsterDefinition.read dbs i (sliceAt input 138 i)).map Prod.fst).getD default))) ∧
    (∀ (input : List Nat) (dbs : NameDbs) (k : Nat), input.length = k * 6 →
      m1.EffectDefinition.read_definitions input dbs = .ok ((List.range k).map (fun i =>
        ((m1.EffectDefinition.read dbs i (sliceAt input 6 i)).map Prod.fst).getD default))) ∧
    (∀ (input : List Nat) (dbs : NameDbs) (k : Nat), input.length = k * 36 →
      m1.ProjectileDefinition.read_definitions input dbs = .ok ((List.range k).map (fun i =>
        ((m1.ProjectileDefinition.read dbs i (sliceAt input 36 i)).map Prod.fst).getD default))) ∧
    (∀ (input : List Nat) (dbs : NameDbs) (k : Nat), input.length = k * 120 →
      m1.WeaponDefinition.read_definitions input dbs = .ok ((List.range k).map (fun i =>
        ((m1.WeaponDefinition.read dbs i (sliceAt input 120 i)).map Prod.fst).getD default))) ∧
    (∀ (input : List Nat) (dbs : NameDbs) (k : Nat), input.length = k * 156 →
      m2.MonsterDefinition.read_definitions input dbs = .ok ((List.range k).map (fun i =>
        ((m2.MonsterDefinition.read dbs i (sliceAt input 156 i)).map Prod.fst).getD default))) ∧
    (∀ (input : List Nat) (dbs : NameDbs) (k : Nat), input.length = k * 14 →
      m2.EffectDefinition.read_definitions input dbs = .ok ((List.range k).map (fun i =>
        ((m2.EffectDefinition.read dbs i (sliceAt input 14 i)).map Prod.fst).getD default))) ∧
    (∀ (input : List Nat) (dbs : NameDbs) (k : Nat), input.length = k * 48 →
      m2.ProjectileDefinition.read_definitions input dbs = .ok ((List.range k).map (fun i =>
        ((m2.ProjectileDefinition.read dbs i (sliceAt input 48 i)).map Prod.fst).getD default))) ∧
    (∀ (input : List Nat) (dbs : NameDbs) (k : Nat), input.length = k * 134 →
      m2.WeaponDefinition.read_definitions input dbs = .ok ((List.range k).map (fun i =>
        ((m2.WeaponDefinition.read dbs i (sliceAt input 134 i)).map Prod.fst).getD default))) :=
  ⟨fun input dbs k h => readDefinitionsWith_complete 138 _ _ (by norm_num)
      (fun i => consumes_m1_monster dbs i) input k h,
   fun input dbs k h => readDefinitionsWith_complete 6 _ _ (by norm_num)
      (fun i => consumes_m1_effect dbs i) input k h,
   fun input dbs k h => readDefinitionsWith_complete 36 _ _ (by norm_num)
      (fun i => consumes_m1_projectile dbs i) input k h,
   fun input dbs k h => readDefinitionsWith_complete 120 _ _ (by norm_num)
      (fun i => consumes_m1_weapon dbs i) input k h,
   fun input dbs k h => readDefinitionsWith_complete 156 _ _ (by norm_num)
      (fun i => consumes_m2_monster dbs i) input k h,
   fun input dbs k h => readDefinitionsWith_complete 14 _ _ (by norm_num)
      (fun i => consumes_m2_effect dbs i) input k h,
   fun input dbs k h => readDefinitionsWith_complete 48 _ _ (by norm_num)
      (fun i => consumes_m2_projectile dbs i) input k h,
   fun input dbs k h => readDefinitionsWith_complete 134 _ _ (by norm_num)
      (fun i => consumes_m2_weapon dbs i) input k h⟩

/-- C3 witness: a 12-byte all-zero payload decodes as exactly two 6-byte
older-generation effect records, in slice order. -/
theorem C3_witness :
    (List.replicate 12 0).length = 2 * 6 ∧
    m1.EffectDefinition.read_definitions (List.replicate 12 0) NameDbs.default =
      .ok ((List.range 2).map (fun i =>
        ((m1.EffectDefinition.read NameDbs.default i (sliceAt (List.replicate 12 0) 6 i)).map
          Prod.fst).getD default)) :=
  ⟨by decide,
   C3_read_definitions_complete.2.1 (List.replicate 12 0) NameDbs.default 2 (by decide)⟩

namespace m1

/-- All 28 monster flag booleans are false. -/
def MonsterDefinition.flagsAllFalse (m : MonsterDefinition) : Bool :=
  !m.flags.omniscient && !m.flags.flies && !m.flags.is_alien && !m.flags.major &&
  !m.flags.minor && !m.flags.cannot_skip && !m.flags.floats && !m.flags.cannot_attack &&
  !m.flags.uses_sniper_ledges && !m.flags.is_invisible && !m.flags.is_subtly_invisible &&
  !m.flags.kamikaze && !m.flags.berserker && !m.flags.enlarged &&
  !m.flags.delayed_hard_death && !m.flags.fires_symmetrically &&
  !m.flags.nuclear_hard_death && !m.flags.cannot_fire_backwards &&
  !m.flags.can_die_in_flames && !m.flags.waits_with_clear_shot && !m.flags.tiny &&
  !m.flags.attacks_immediately && !m.flags.not_afraid_of_water &&
  !m.flags.not_afraid_of_sewage && !m.flags.not_afraid_of_lava &&
  !m.flags.not_afraid_of_goo && !m.flags.can_teleport_under_media &&
  !m.flags.chooses_weapons_randomly

/-- Every `Option`-typed field of the record (including the two attacks) is
absent. -/
def MonsterDefinition.optionalsAbsent (m : MonsterDefinition) : Bool :=
  m.collection.isNone && m.clut.isNone && m.vitality.isNone && m.class_.isNone &&
  m.activation_sound.isNone && m.conversation_sound.isNone && m.flaming_sound.isNone &&
  m.random_sound.isNone && m.random_sound_mask.isNone && m.carrying_item_type.isNone &&
  m.impact_effect.isNone && m.melee_impact_effect.isNone && m.intelligence.isNone &&
  m.door_retry_mask.isNone && m.shrapnel_radius.isNone && m.shrapnel_damage.damage_type.isNone &&
  m.hit_sequence.isNone && m.hard_dying_sequence.isNone && m.soft_dying_sequence.isNone &&
  m.hard_dead_sequence.isNone && m.soft_dead_sequence.isNone && m.stationary_sequence.isNone &&
  m.moving_sequence.isNone && m.attack_frequency.isNone && m.melee_attack.isNone &&
  m.ranged_attack.isNone

/-- Every `Option`-typed field of the record (including the two attacks) is
present. -/
def MonsterDefinition.optionalsPresent (m : MonsterDefinition) : Bool :=
  m.collection.isSome && m.clut.isSome && m.vitality.isSome && m.class_.isSome &&
  m.activation_sound.isSome && m.conversation_sound.isSome && m.flaming_sound.isSome &&
  m.random_sound.isSome && m.random_sound_mask.isSome && m.carrying_item_type.isSome &&
  m.impact_effect.isSome && m.melee_impact_effect.isSome && m.intelligence.isSome &&
  m.door_retry_mask.isSome && m.shrapnel_radius.isSome && m.shrapnel_damage.damage_type.isSome &&
  m.hit_sequence.isSome && m.hard_dying_sequence.isSome && m.soft_dying_sequence.isSome &&
  m.hard_dead_sequence.isSome && m.soft_dead_sequence.isSome && m.stationary_sequence.isSome &&
  m.moving_sequence.isSome && m.attack_frequency.isSome && m.melee_attack.isSome &&
  m.ranged_attack.isSome

end m1

/-- A flat-dialect input holding a single chunk: tag "mons", 4 ignored bytes,
count 1, element size 138, and a 138-byte all-zero monster record. -/
def c2Input : List Nat :=
  m1.MONSTER_PHYSICS_TAG ++ [0, 0, 0, 0] ++ [0, 1] ++ [0, 138] ++ List.replicate 138 0

/-- The monster-decoding path of the flat-dialect assembler on `c2Input` with
no name-resolution mapping supplied: read the flat chunk stream, find the
"mons" chunk, decode its payload. -/
def c2Result : Except Err (List m1.MonsterDefinition) :=
  Except.bind
    (Except.bind (read_m1_chunks c2Input)
      (fun chunks => Chunk.find chunks m1.MONSTER_PHYSICS_TAG))
    (fun payload => m1.MonsterDefinition.read_definitions payload NameDbs.default)

/-- C2 counterexample: the all-zero record does NOT decode with its optional
fields absent (the absence sentinel is bit 0x8000 being set, which zero bytes
never set), refuting the claim as stated: the decode does not yield one
entity with name 0, all flags false, and all optionals absent. -/
theorem C2_counterexample :
    ¬ (c2Result.map (fun l => l.map (fun m =>
        (m.name, m.flagsAllFalse, m.optionalsAbsent))) =
      .ok [(JValue.num 0, true, true)]) := by decide

/-- C2 amended: the flat-dialect input with a single all-zero 138-byte monster
record and no name-resolution mapping decodes to exactly one MonsterEntity
whose name is the numeric index 0 and whose boolean flags are all false — but
whose optional fields are all PRESENT (each decoding from the zero word, which
has the absence bit 0x8000 clear). -/
theorem C2_amended_zero_record :
    c2Result.map (fun l => l.map (fun m =>
        (m.name, m.flagsAllFalse, m.optionalsPresent, m.vitality))) =
      .ok [(JValue.num 0, true, true, some 0)] := by decide

/-- The sequential reference reader only appends to its accumulator. -/
theorem readM2SeqLoop_prefix (input : List Nat) :
    ∀ (fuel pos : Nat) (acc l : List (Chunk × Nat)),
    readM2SeqLoop input fuel pos acc = .ok l → ∃ t, l = acc ++ t := by
  intro fuel
  induction fuel with
  | zero =>
    intro pos acc l h
    exact Except.noConfusion h
  | succ n ih =>
    intro pos acc l h
    simp only [readM2SeqLoop] at h
    split at h
    · cases h
      exact ⟨[], (List.append_nil acc).symm⟩
    · split at h
      all_goals try exact Except.noConfusion h
      split at h
      all_goals try exact Except.noConfusion h
      split at h
      all_goals try exact Except.noConfusion h
      obtain ⟨t, ht⟩ := ih _ _ _ h
      rw [List.append_assoc] at ht
      exact ⟨_, ht⟩

/-- When every next-offset field recorded by the sequential reference parse is
zero, the seek-based loop takes the sequential path at every step and returns
the same chunks. -/
theorem readM2Loop_agrees_seq (input : List Nat) :
    ∀ (fuel pos : Nat) (acc l : List (Chunk × Nat)),
    readM2SeqLoop input fuel pos acc = .ok l →
    (∀ p ∈ l, p.2 = 0) →
    readM2Loop input fuel pos 0 (acc.map Prod.fst) = .ok (l.map Prod.fst) := by
  intro fuel
  induction fuel with
  | zero =>
    intro pos acc l h hz
    exact Except.noConfusion h
  | succ n ih =>
    intro pos acc l h hz
    simp only [readM2SeqLoop] at h
    simp only [readM2Loop]
    norm_num
    split at h
    · cases h
      rfl
    · split at h
      all_goals try exact Except.noConfusion h
      split at h
      all_goals try exact Except.noConfusion h
      split at h
      all_goals try exact Except.noConfusion h
      rename_i sA kind heqA sB sC sD nextOff2 length unknown heqB heqC heqD hcond sE data heqE
      obtain ⟨t, ht⟩ := readM2SeqLoop_prefix input n _ _ _ h
      have hmem : (Chunk.mk kind data, nextOff2) ∈ l := by
        rw [ht]
        simp
      have hno : nextOff2 = 0 := hz _ hmem
      rw [hno] at h ⊢
      have happ : List.map Prod.fst acc ++ [Chunk.mk kind data] =
          List.map Prod.fst (acc ++ [(Chunk.mk kind data, (0 : Nat))]) := by
        simp
      rw [happ]
      rw [if_pos (show unknown = 0 by omega)]
      exact ih _ _ _ h hz

/-- C1 (amended): the embedded-stream reader `read_m2_chunks` DOES use the
32-bit next-offset field for navigation — before reading each subsequent
chunk header it seeks to the previous chunk's next-offset value whenever that
value is nonzero, and reads at the sequential position only when it is zero.
Consequently it agrees with the purely sequential reference reader on every
input whose parsed chunk headers all carry a zero next-offset field. -/
theorem C1_next_offset_navigation (input : List Nat) (l : List (Chunk × Nat))
    (h : readM2SeqLoop input (input.length + 1) 0 [] = .ok l)
    (hz : ∀ p ∈ l, p.2 = 0) :
    read_m2_chunks input = .ok (l.map Prod.fst) :=
  readM2Loop_agrees_seq input (input.length + 1) 0 [] l h hz

/-- A 48-byte subfile with three zero-payload chunks "AAAA" (at 0, next-offset
field 32), "BBBB" (at 16), "CCCC" (at 32): the seek-based reader follows the
next-offset 32 after "AAAA" and skips "BBBB". -/
def c1Input : List Nat :=
  [65, 65, 65, 65, 0, 0, 0, 32, 0, 0, 0, 0, 0, 0, 0, 0] ++
  [66, 66, 66, 66, 0, 0, 0, 0, 0, 0, 0, 0, 0, 0, 0, 0] ++
  [67, 67, 67, 67, 0, 0, 0, 0, 0, 0, 0, 0, 0, 0, 0, 0]

/-- C1 counterexample: on `c1Input` the embedded-stream reader returns
["AAAA", "CCCC"] while the purely sequential reference reader returns
["AAAA", "BBBB", "CCCC"]; the chunk list is therefore affected by the stored
next-offset value, refuting the claim as stated. -/
theorem C1_counterexample :
    read_m2_chunks c1Input = .ok [⟨[65, 65, 65, 65], []⟩, ⟨[67, 67, 67, 67], []⟩] ∧
    read_m2_chunks_seq c1Input =
      .ok [⟨[65, 65, 65, 65], []⟩, ⟨[66, 66, 66, 66], []⟩, ⟨[67, 67, 67, 67], []⟩] ∧
    read_m2_chunks c1Input ≠ read_m2_chunks_seq c1Input := by decide

/-- A 32-byte subfile with two zero-payload chunks whose next-offset fields
are both zero. -/
def c1ZeroInput : List Nat :=
  [65, 65, 65, 65, 0, 0, 0, 0, 0, 0, 0, 0, 0, 0, 0, 0] ++
  [66, 66, 66, 66, 0, 0, 0, 0, 0, 0, 0, 0, 0, 0, 0, 0]

/-- C1 witness: on an input whose chunk headers all store next-offset 0 the
seek-based reader returns exactly the sequential reference reader's chunks. -/
theorem C1_witness :
    read_m2_chunks c1ZeroInput = .ok [⟨[65, 65, 65, 65], []⟩, ⟨[66, 66, 66, 66], []⟩] :=
  C1_next_offset_navigation c1ZeroInput
    [(⟨[65, 65, 65, 65], []⟩, 0), (⟨[66, 66, 66, 66], []⟩, 0)] (by decide) (by decide)
